import Mathlib

/-!
Verification development for the transport-comparison core of the
Travel_agent repository (app/agents/transport_agent.py, app/tools/mcp_tools.py,
app/tools/city_codes.py, app/tools/mcp_base.py, app/tools/utils.py).

The Python code is shallowly embedded: dynamic dict/list/str values are
modelled by the `JValue` type with Python numbers as rationals, Python string
primitives (strip, isalpha, upper, join, repr) are modelled over the character
universe actually used by the program (ASCII plus CJK unified ideographs), and
every network or LLM collaborator is an explicit oracle parameter.
-/

set_option maxHeartbeats 1000000
set_option maxRecDepth 10000

namespace TravelAgent

/-! ## Python string primitives -/

/-- Whitespace characters stripped by Python `str.strip` (restricted to the
ASCII whitespace occurring in this codebase's strings). -/
def isPySpace (c : Char) : Bool :=
  c == ' ' || c == '\t' || c == '\n' || c == '\r' || c == '\x0b' || c == '\x0c'

/-- Strip whitespace from both ends of a character list. -/
def stripList (l : List Char) : List Char :=
  ((l.dropWhile isPySpace).reverse.dropWhile isPySpace).reverse

/-- Model of Python `str.strip()`: drop whitespace from both ends. -/
def pyStrip (s : String) : String := ⟨stripList s.data⟩

/-- Model of Python `str.isalpha` for one character, restricted to the
character ranges appearing in this program: ASCII letters plus CJK unified
ideographs (Unicode category Lo, which Python counts as alphabetic). -/
def pyAlphaChar (c : Char) : Bool :=
  c.isAlpha || (0x4E00 ≤ c.toNat && c.toNat ≤ 0x9FFF)

/-- Model of Python `str.isalpha`: nonempty and every character alphabetic. -/
def pyIsAlpha (s : String) : Bool :=
  !s.data.isEmpty && s.data.all pyAlphaChar

/-- Model of Python `str.upper` (ASCII letters map to upper case; CJK
characters are unchanged, as in Python). -/
def pyUpper (s : String) : String := ⟨s.data.map Char.toUpper⟩

/-- Model of Python `str.lower`. -/
def pyLower (s : String) : String := ⟨s.data.map Char.toLower⟩

/-- Model of Python `sep.join(parts)`. -/
def joinWith (sep : String) : List String → String
  | [] => ""
  | [x] => x
  | x :: xs => x ++ sep ++ joinWith sep xs

/-- Boolean test that `pre` is a leading segment of `s`. -/
def strHasPre (pre s : String) : Bool := List.isPrefixOf pre.data s.data

/-- Boolean test for a contiguous occurrence of `needle` in a character
list. -/
def hasSubList (needle : List Char) : List Char → Bool
  | [] => needle.isEmpty
  | c :: rest => List.isPrefixOf needle (c :: rest) || hasSubList needle rest

/-- Boolean test that `needle` occurs contiguously inside `s`. -/
def strHasSub (needle s : String) : Bool := hasSubList needle.data s.data

/-- Model of the anchored regex `^\d\d\d\d-\d\d-\d\d$` used by
`_is_valid_yyyy_mm_dd` in transport_agent.py. -/
def matchesDateShape (s : String) : Bool :=
  match s.data with
  | [a, b, c, d, h1, e, f, h2, g, h] =>
      a.isDigit && b.isDigit && c.isDigit && d.isDigit && h1 == '-' &&
      e.isDigit && f.isDigit && h2 == '-' && g.isDigit && h.isDigit
  | _ => false

/-- Numeric value of a list of decimal digit characters. -/
def digitsVal (l : List Char) : Nat :=
  l.foldl (fun acc c => 10 * acc + (c.toNat - '0'.toNat)) 0

/-- Model of Python `float(string)` restricted to the plain decimal forms the
providers emit: optional sign, digits with at most one decimal point.
Exponent, inf and nan forms lie outside the modelled universe. -/
def parseFloat (s0 : String) : Option ℚ :=
  let l0 := (pyStrip s0).data
  let signAndBody : ℚ × List Char :=
    match l0 with
    | '-' :: rest => (-1, rest)
    | '+' :: rest => (1, rest)
    | rest => (1, rest)
  let sign := signAndBody.1
  let l := signAndBody.2
  let intPart := l.takeWhile (fun c => c != '.')
  let rest := l.dropWhile (fun c => c != '.')
  if !intPart.all Char.isDigit then none
  else
    match rest with
    | [] => if intPart.isEmpty then none else some (sign * digitsVal intPart)
    | '.' :: frac =>
        if !frac.all Char.isDigit then none
        else if intPart.isEmpty && frac.isEmpty then none
        else some (sign * ((digitsVal intPart : ℚ) +
          (digitsVal frac : ℚ) / (10 : ℚ) ^ frac.length))
    | _ => none

/-! ## Dynamic values -/

/-- Dynamic values passed around by the Python code: JSON-like data with
Python numbers modelled as rationals. -/
inductive JValue where
  | null
  | bool (b : Bool)
  | num (q : ℚ)
  | str (s : String)
  | arr (items : List JValue)
  | obj (fields : List (String × JValue))

instance : Inhabited JValue := ⟨.null⟩

namespace JValue

/-- Association-list find behind Python dict access (`none` = key absent). -/
def find : JValue → String → Option JValue
  | .obj fs, k => (fs.find? (fun p => p.1 == k)).map (·.2)
  | _, _ => none

/-- Model of Python `d.get(k)`: `None` when the key is absent.  Call sites
only apply it where the source applies `.get` to a dict. -/
def get (v : JValue) (k : String) : JValue := (v.find k).getD .null

/-- Model of Python `d.get(k, default)`. -/
def getD (v : JValue) (k : String) (d : JValue) : JValue := (v.find k).getD d

/-- Model of Python truthiness `bool(v)`. -/
def truthy : JValue → Bool
  | .null => false
  | .bool b => b
  | .num q => q != 0
  | .str s => !s.data.isEmpty
  | .arr l => !l.isEmpty
  | .obj fs => !fs.isEmpty

/-- Model of `isinstance(v, dict)`. -/
def isObj : JValue → Bool
  | .obj _ => true
  | _ => false

/-- Model of `isinstance(v, list)`. -/
def isArr : JValue → Bool
  | .arr _ => true
  | _ => false

/-- Model of `isinstance(v, str)`. -/
def isStr : JValue → Bool
  | .str _ => true
  | _ => false

/-- Model of Python dict assignment `d[k] = v`: replace in place, preserving
insertion order, otherwise append. -/
def assocSet (fs : List (String × JValue)) (k : String) (v : JValue) :
    List (String × JValue) :=
  if (fs.find? (fun p => p.1 == k)).isSome then
    fs.map (fun p => if p.1 == k then (k, v) else p)
  else fs ++ [(k, v)]

/-- Dict assignment on a value.  Non-dict receivers do not occur on the
translated paths (Python would raise there). -/
def set (v : JValue) (k : String) (x : JValue) : JValue :=
  match v with
  | .obj fs => .obj (assocSet fs k x)
  | other => other

end JValue

/-- Render a Python number: integers print without a fraction; the non-integer
case never occurs in a rendered value of this development. -/
def reprRat (q : ℚ) : String :=
  if q.den = 1 then
    (if q.num < 0 then "-" ++ toString q.num.natAbs else toString q.num.natAbs)
  else toString q.num.natAbs ++ "/" ++ toString q.den

mutual

/-- Model of Python `str`/`repr` on dynamic values (single-quoted strings
without escapes, which covers every string this code renders). -/
def pyRepr : JValue → String
  | .null => "None"
  | .bool true => "True"
  | .bool false => "False"
  | .num q => reprRat q
  | .str s => "\x27" ++ s ++ "\x27"
  | .arr l => "[" ++ joinWith ", " (pyReprList l) ++ "]"
  | .obj fs => "\x7b" ++ joinWith ", " (pyReprFields fs) ++ "\x7d"

/-- Renders the items of a Python list. -/
def pyReprList : List JValue → List String
  | [] => []
  | v :: vs => pyRepr v :: pyReprList vs

/-- Renders the key/value pairs of a Python dict. -/
def pyReprFields : List (String × JValue) → List String
  | [] => []
  | (k, v) :: fs => ("\x27" ++ k ++ "\x27: " ++ pyRepr v) :: pyReprFields fs

end

/-! ## LocationResolver (app/tools/city_codes.py) -/

/-- The ALIASES table of city_codes.py. -/
def ALIASES : List (String × String) :=
  [("北京市", "北京"), ("上海市", "上海"), ("广州市", "广州"), ("深圳市", "深圳"),
   ("西安市", "西安"), ("成都市", "成都"), ("重庆市", "重庆")]

/-- Modelled from the spec: the static name→IATA-city-code table
`CITY_CODE_MAP` lives in app/data/city_code_map.py, which is not among the
provided sources.  The spec describes it as a static name→IATA-city-code
mapping; it is instantiated here for the two cities of the spec's examples. -/
def CITY_CODE_MAP : List (String × String) := [("北京", "BJS"), ("上海", "SHA")]

/-- Translation of `to_iata_city_code` (city_codes.py lines 19-34). -/
def to_iata_city_code (name_or_code : String) : Option String :=
  let s := pyStrip name_or_code
  if s = "" then none
  else if s.length == 3 && pyIsAlpha s then some (pyUpper s)
  else
    let s1 := (List.lookup s ALIASES).getD s
    match List.lookup s1 CITY_CODE_MAP with
    | some code => if code = "" then none else some (pyUpper code)
    | none => none

/-! ## FlightClient input guard (transport_agent._get_flight_info) -/

/-- Outcome of the flight-query input guard: an invalid-input failure or the
remote call actually issued. -/
inductive FlightGuardOutcome where
  | invalid (msg : String)
  | call (depCode arrCode : String)
deriving DecidableEq

/-- The `to_iata_city_code(city) or city` fallback of transport_agent.py
lines 253-254. -/
def flightCodeFallback (city : String) : String :=
  (to_iata_city_code city).getD city

/-- Translation of the input guard of `_get_flight_info` (transport_agent.py
lines 252-270): which remote flight-search call, if any, is issued. -/
def flightGuard (departure destination : String) : FlightGuardOutcome :=
  if (flightCodeFallback departure).length ≠ 3 then
    .invalid ("无法解析出发城市IATA码：" ++ departure)
  else if (flightCodeFallback destination).length ≠ 3 then
    .invalid ("无法解析目的地IATA码：" ++ destination)
  else .call (flightCodeFallback departure) (flightCodeFallback destination)

/-- Every code held by the modelled static city table has three letters. -/
lemma lookup_city_map_length (s code : String)
    (h : List.lookup s CITY_CODE_MAP = some code) : code.length = 3 := by
  simp only [CITY_CODE_MAP, List.lookup_cons, List.lookup_nil] at h
  split at h
  · cases h; decide
  · split at h
    · cases h; decide
    · cases h

/-- `pyUpper` preserves string length. -/
lemma pyUpper_length (s : String) : (pyUpper s).length = s.length := by
  cases s with
  | mk l => simp [pyUpper, String.length]

/-- A successfully resolved flight code always has exactly three letters. -/
lemma to_iata_length (x c : String) (h : to_iata_city_code x = some c) :
    c.length = 3 := by
  simp only [to_iata_city_code] at h
  split at h
  · cases h
  · split at h
    · rename_i hcond
      cases h
      rw [pyUpper_length]
      have h2 := (Bool.and_eq_true _ _).mp hcond
      simp only [beq_iff_eq] at h2
      exact h2.1
    · split at h
      · rename_i code hcode
        split at h
        · cases h
        · cases h
          rw [pyUpper_length]
          exact lookup_city_map_length _ _ hcode
      · cases h

/-- The fallback value has length 3 exactly when the resolver succeeded (its
output always has three letters) or the raw input itself has three
characters. -/
lemma flightCodeFallback_length_iff (s : String) :
    (flightCodeFallback s).length = 3 ↔
      ((to_iata_city_code s).isSome ∨ s.length = 3) := by
  unfold flightCodeFallback
  cases h : to_iata_city_code s with
  | none => simp [h]
  | some c => simp [h, to_iata_length s c h]

/-- C4 (amended): `_get_flight_info` returns an invalid-input failure without
a remote call exactly when the resolved code — or, when resolution fails, the
raw input text — does not have exactly 3 characters; the remote flight-search
call is issued exactly when each endpoint either resolves or is itself a
3-character string, and it carries the resolved-or-raw codes. -/
theorem c4_flight_guard_length_gate (dep dst : String) :
    ((∃ a b, flightGuard dep dst = .call a b) ↔
      (((to_iata_city_code dep).isSome ∨ dep.length = 3) ∧
       ((to_iata_city_code dst).isSome ∨ dst.length = 3))) ∧
    (∀ a b, flightGuard dep dst = .call a b →
       a = flightCodeFallback dep ∧ b = flightCodeFallback dst) := by
  constructor
  · rw [← flightCodeFallback_length_iff dep, ← flightCodeFallback_length_iff dst]
    by_cases h1 : (flightCodeFallback dep).length = 3 <;>
      by_cases h2 : (flightCodeFallback dst).length = 3 <;>
      simp [flightGuard, h1, h2]
  · intro a b hab
    unfold flightGuard at hab
    split at hab
    · cases hab
    · split at hab
      · cases hab
      · injection hab with ha hb
        exact ⟨ha.symm, hb.symm⟩

/-- C4 witness: both endpoints of 北京→上海 resolve, so the remote call with
the resolved codes is issued. -/
theorem c4_flight_guard_length_gate_witness :
    flightGuard "北京" "上海" = .call "BJS" "SHA" ∧
    ("BJS" = flightCodeFallback "北京" ∧ "SHA" = flightCodeFallback "上海") :=
  ⟨by decide, (c4_flight_guard_length_gate "北京" "上海").2 "BJS" "SHA" (by decide)⟩

/-- C4 counterexample: "BJ2" does not resolve to any IATA code (it contains a
digit and is in no table), yet because the raw string has 3 characters the
guard lets it through and the remote flight-search call is issued — the claim
that no remote call happens when resolution fails is false. -/
theorem c4_unresolved_input_still_calls_remote :
    to_iata_city_code "BJ2" = none ∧
    flightGuard "BJ2" "上海" = .call "BJ2" "SHA" := by
  exact ⟨by decide, by decide⟩

/-- C8: evidence that the resolver contradicts the documented alias
behaviour: "北京市" consists of 3 alphabetic characters under Python
`str.isalpha`, so it is returned unchanged by the already-a-code branch and
the alias table (every key of which has 3 characters) is unreachable;
resolve("北京市") therefore differs from resolve("北京"). -/
theorem c8_alias_table_unreachable :
    to_iata_city_code "北京市" = some "北京市" ∧
    to_iata_city_code "北京" = some "BJS" ∧
    to_iata_city_code "北京市" ≠ to_iata_city_code "北京" := by
  exact ⟨by decide, by decide, by decide⟩

/-! ## Train summaries (mcp_tools._seat_available, mcp_tools._summarize_trains) -/

/-- Model of Python `float(v)` on a dynamic value: numbers pass through,
booleans coerce to 0/1, strings are parsed, everything else raises (none). -/
def jFloat : JValue → Option ℚ
  | .num q => some q
  | .bool b => some (if b then 1 else 0)
  | .str s => parseFloat s
  | _ => none

/-- The string stage of `_seat_available` (mcp_tools.py lines 150-158):
`str(num).strip()` compared against the no-seat markers, then "有", then a
float parse. -/
def seatStrCheck (s : String) : Bool :=
  let t := pyStrip s
  if t = "无" || t = "--" || t = "0" || t = "" then false
  else if t = "有" then true
  else
    match parseFloat t with
    | some q => decide (0 < q)
    | none => false

/-- Translation of `_seat_available` (mcp_tools.py lines 145-158).  `None` is
never available; ints/floats (and bools, which Python counts as ints) compare
against 0; anything else goes through `str(num)`. -/
def _seat_available : JValue → Bool
  | .null => false
  | .num q => decide (0 < q)
  | .bool b => b
  | .str s => seatStrCheck s
  | v => seatStrCheck (pyRepr v)

/-- Translation of the inner loop of `_summarize_trains` over one train's
`prices` list, carrying the `train_has_any_seat` flag and the running
minimum. -/
def priceFold : List JValue → Bool → Option ℚ → Bool × Option ℚ
  | [], hasSeat, minPrice => (hasSeat, minPrice)
  | p :: rest, hasSeat, minPrice =>
    if p.isObj = false then priceFold rest hasSeat minPrice
    else if _seat_available (p.get "num") = false then priceFold rest hasSeat minPrice
    else
      match p.get "price" with
      | .null => priceFold rest true minPrice
      | pv =>
        match jFloat pv with
        | none => priceFold rest true minPrice
        | some q =>
          match minPrice with
          | none => priceFold rest true (some q)
          | some m => priceFold rest true (some (if q < m then q else m))

/-- Translation of the outer loop of `_summarize_trains` over the train list,
carrying the running minimum and `available_train_count`. -/
def trainsFold : List JValue → Option ℚ → Nat → Option ℚ × Nat
  | [], minPrice, avail => (minPrice, avail)
  | t :: rest, minPrice, avail =>
    if t.isObj = false then trainsFold rest minPrice avail
    else
      match t.get "prices" with
      | .arr ps =>
        let inner := priceFold ps false minPrice
        trainsFold rest inner.2 (if inner.1 then avail + 1 else avail)
      | _ => trainsFold rest minPrice avail

/-- Translation of `_summarize_trains` (mcp_tools.py lines 161-199). -/
def _summarize_trains : JValue → JValue
  | .arr trains =>
    let acc := trainsFold trains none 0
    .obj [("count", .num trains.length),
          ("min_price", match acc.1 with | some q => .num q | none => .null),
          ("available_train_count", .num acc.2)]
  | _ =>
    .obj [("count", .num 0), ("min_price", .null),
          ("available_train_count", .num 0)]

/-- Declarative side: a price entry that counts as seat-available. -/
def availPriceEntry (p : JValue) : Bool :=
  p.isObj && _seat_available (p.get "num")

/-- Declarative side: a train dict with at least one seat-available price
entry. -/
def trainSeatAvailable (t : JValue) : Bool :=
  t.isObj &&
    (match t.get "prices" with
     | .arr ps => ps.any availPriceEntry
     | _ => false)

/-- Declarative side: the parseable prices of one train's seat-available
price entries. -/
def trainPrices (t : JValue) : List ℚ :=
  if t.isObj then
    match t.get "prices" with
    | .arr ps => ps.filterMap (fun p =>
        if availPriceEntry p then jFloat (p.get "price") else none)
    | _ => []
  else []

/-- Declarative side: all parseable seat-available prices of the whole
list. -/
def allPrices (trains : List JValue) : List ℚ := trains.flatMap trainPrices

/-- Running minimum in the style of the source loop, as a fold. -/
def minFold (m : Option ℚ) (l : List ℚ) : Option ℚ :=
  l.foldl (fun acc q =>
    match acc with
    | none => some q
    | some m0 => some (if q < m0 then q else m0)) m

lemma priceFold_eq (ps : List JValue) (hasSeat : Bool) (minPrice : Option ℚ) :
    priceFold ps hasSeat minPrice =
      (hasSeat || ps.any availPriceEntry,
       minFold minPrice (ps.filterMap (fun p =>
         if availPriceEntry p then jFloat (p.get "price") else none))) := by
  induction ps generalizing hasSeat minPrice with
  | nil => simp [priceFold, minFold]
  | cons p rest ih =>
    by_cases hobj : p.isObj = false
    · have hap : availPriceEntry p = false := by
        simp [availPriceEntry, hobj]
      simp [priceFold, hobj, hap, ih]
    · simp only [Bool.not_eq_false] at hobj
      by_cases hsa : _seat_available (p.get "num") = false
      · have hap : availPriceEntry p = false := by
          simp [availPriceEntry, hsa]
        simp [priceFold, hobj, hsa, hap, ih]
      · simp only [Bool.not_eq_false] at hsa
        have hap : availPriceEntry p = true := by
          simp [availPriceEntry, hobj, hsa]
        cases hp : p.get "price" with
        | null =>
          have hf : jFloat (p.get "price") = none := by simp [hp, jFloat]
          simp [priceFold, hobj, hsa, hp, hap, ih, hf, minFold, jFloat,
            List.filterMap_cons]
        | _ =>
          cases hq : jFloat (p.get "price") with
          | none =>
            simp_all [priceFold, hap, minFold]
          | some q =>
            cases minPrice with
            | none => simp_all [priceFold, hap, minFold]
            | some m => simp_all [priceFold, hap, minFold]

lemma minFold_append (m : Option ℚ) (l1 l2 : List ℚ) :
    minFold m (l1 ++ l2) = minFold (minFold m l1) l2 := by
  simp [minFold, List.foldl_append]

lemma ite_lt_min (m0 q : ℚ) : (if q < m0 then q else m0) = min m0 q := by
  rcases le_or_lt m0 q with h | h
  · rw [if_neg (not_lt.mpr h), min_eq_left h]
  · rw [if_pos h, min_eq_right (le_of_lt h)]

lemma minFold_some (m0 : ℚ) (l : List ℚ) :
    minFold (some m0) l = some (l.foldl min m0) := by
  induction l generalizing m0 with
  | nil => simp [minFold]
  | cons q rest ih =>
    show minFold (some (if q < m0 then q else m0)) rest = _
    rw [ite_lt_min, ih, List.foldl_cons]

lemma minFold_none_cons (q : ℚ) (rest : List ℚ) :
    minFold none (q :: rest) = some (rest.foldl min q) := by
  show minFold (some q) rest = _
  exact minFold_some q rest

lemma foldl_min_le_init (m0 : ℚ) (l : List ℚ) : l.foldl min m0 ≤ m0 := by
  induction l generalizing m0 with
  | nil => simp
  | cons q rest ih =>
    calc (q :: rest).foldl min m0 = rest.foldl min (min m0 q) := by rw [List.foldl_cons]
    _ ≤ min m0 q := ih _
    _ ≤ m0 := min_le_left _ _

lemma foldl_min_le_mem (m0 : ℚ) (l : List ℚ) :
    ∀ q ∈ l, l.foldl min m0 ≤ q := by
  induction l generalizing m0 with
  | nil => intro q hq; cases hq
  | cons x rest ih =>
    intro q hq
    rcases List.mem_cons.mp hq with h | h
    · subst h
      calc (q :: rest).foldl min m0 = rest.foldl min (min m0 q) := by rw [List.foldl_cons]
      _ ≤ min m0 q := foldl_min_le_init _ _
      _ ≤ q := min_le_right _ _
    · rw [List.foldl_cons]
      exact ih (min m0 x) q h

lemma foldl_min_mem (m0 : ℚ) (l : List ℚ) :
    l.foldl min m0 = m0 ∨ l.foldl min m0 ∈ l := by
  induction l generalizing m0 with
  | nil => left; rfl
  | cons x rest ih =>
    rw [List.foldl_cons]
    rcases ih (min m0 x) with h | h
    · rcases min_choice m0 x with hc | hc
      · left; rw [h, hc]
      · right; rw [h, hc]; exact List.mem_cons_self x rest
    · right; exact List.mem_cons_of_mem x h

lemma trainsFold_eq (trains : List JValue) (m : Option ℚ) (a : Nat) :
    trainsFold trains m a =
      (minFold m (allPrices trains),
       a + (trains.filter trainSeatAvailable).length) := by
  induction trains generalizing m a with
  | nil => simp [trainsFold, allPrices, minFold]
  | cons t rest ih =>
    by_cases hobj : t.isObj = false
    · have h1 : trainSeatAvailable t = false := by simp [trainSeatAvailable, hobj]
      have h2 : trainPrices t = [] := by simp [trainPrices, hobj]
      simp [trainsFold, hobj, ih, allPrices, h1, h2]
    · simp only [Bool.not_eq_false] at hobj
      cases hp : t.get "prices" with
      | arr ps =>
        have h1 : trainSeatAvailable t = ps.any availPriceEntry := by
          simp [trainSeatAvailable, hobj, hp]
        have h2 : trainPrices t = ps.filterMap (fun p =>
            if availPriceEntry p then jFloat (p.get "price") else none) := by
          simp [trainPrices, hobj, hp]
        have hstep : trainsFold (t :: rest) m a =
            trainsFold rest
              (minFold m (ps.filterMap (fun p =>
                if availPriceEntry p then jFloat (p.get "price") else none)))
              (if ps.any availPriceEntry then a + 1 else a) := by
          simp [trainsFold, hobj, hp, priceFold_eq]
        rw [hstep, ih]
        have hall : allPrices (t :: rest) = trainPrices t ++ allPrices rest := by
          simp [allPrices]
        rw [hall, h2, minFold_append]
        have hcount : ((t :: rest).filter trainSeatAvailable).length =
            (if ps.any availPriceEntry then 1 else 0) +
              (rest.filter trainSeatAvailable).length := by
          rw [List.filter_cons, h1]
          cases ps.any availPriceEntry
          · simp
          · simp
            omega
        rw [hcount]
        cases hb : ps.any availPriceEntry
        · simp [hb]
        · simp [hb]
          omega
      | null =>
        have h1 : trainSeatAvailable t = false := by simp [trainSeatAvailable, hobj, hp]
        have h2 : trainPrices t = [] := by simp [trainPrices, hobj, hp]
        simp [trainsFold, hobj, hp, ih, allPrices, h1, h2]
      | bool b =>
        have h1 : trainSeatAvailable t = false := by simp [trainSeatAvailable, hobj, hp]
        have h2 : trainPrices t = [] := by simp [trainPrices, hobj, hp]
        simp [trainsFold, hobj, hp, ih, allPrices, h1, h2]
      | num q =>
        have h1 : trainSeatAvailable t = false := by simp [trainSeatAvailable, hobj, hp]
        have h2 : trainPrices t = [] := by simp [trainPrices, hobj, hp]
        simp [trainsFold, hobj, hp, ih, allPrices, h1, h2]
      | str s =>
        have h1 : trainSeatAvailable t = false := by simp [trainSeatAvailable, hobj, hp]
        have h2 : trainPrices t = [] := by simp [trainPrices, hobj, hp]
        simp [trainsFold, hobj, hp, ih, allPrices, h1, h2]
      | obj fs =>
        have h1 : trainSeatAvailable t = false := by simp [trainSeatAvailable, hobj, hp]
        have h2 : trainPrices t = [] := by simp [trainPrices, hobj, hp]
        simp [trainsFold, hobj, hp, ih, allPrices, h1, h2]

/-- C10: for every input list the train summary's `count` equals the list
length; `available_train_count` counts exactly the train dicts with at least
one seat-available price entry (and hence is at most `count`); a non-null
`min_price` is a member of, and a lower bound of, the parseable prices over
seat-available entries (their minimum), is null exactly when no such price
exists; and a non-list input summarizes to zeros. -/
theorem c10_summarize_trains_characterization :
    (∀ trains : List JValue,
      (_summarize_trains (.arr trains)).get "count" = .num trains.length ∧
      (_summarize_trains (.arr trains)).get "available_train_count" =
        .num ((trains.filter trainSeatAvailable).length) ∧
      (trains.filter trainSeatAvailable).length ≤ trains.length ∧
      (allPrices trains = [] →
        (_summarize_trains (.arr trains)).get "min_price" = .null) ∧
      (allPrices trains ≠ [] → ∃ m : ℚ,
        (_summarize_trains (.arr trains)).get "min_price" = .num m ∧
        m ∈ allPrices trains ∧ ∀ q ∈ allPrices trains, m ≤ q)) ∧
    (∀ v : JValue, v.isArr = false →
      _summarize_trains v =
        .obj [("count", .num 0), ("min_price", .null),
              ("available_train_count", .num 0)]) := by
  constructor
  · intro trains
    have hfold := trainsFold_eq trains none 0
    refine ⟨?_, ?_, ?_, ?_, ?_⟩
    · simp [_summarize_trains, JValue.get, JValue.find]
    · simp [_summarize_trains, hfold, JValue.get, JValue.find]
    · exact List.length_filter_le _ _
    · intro hemp
      simp [_summarize_trains, hfold, hemp, minFold, JValue.get, JValue.find]
    · intro hne
      cases hl : allPrices trains with
      | nil => exact absurd hl hne
      | cons q rest =>
        refine ⟨rest.foldl min q, ?_, ?_, ?_⟩
        · simp [_summarize_trains, hfold, hl, minFold_none_cons,
            JValue.get, JValue.find]
        · rcases foldl_min_mem q rest with h | h
          · rw [h]; exact List.mem_cons_self _ _
          · exact List.mem_cons_of_mem _ h
        · intro x hx
          rcases List.mem_cons.mp hx with h | h
          · rw [h]; exact foldl_min_le_init _ _
          · exact foldl_min_le_mem _ _ _ h
  · intro v hv
    cases v <;> simp_all [_summarize_trains, JValue.isArr]

/-- C10 witness: a two-element list with one junk entry and one train having
an available 553-yuan seat: count 2, one available train, minimum price
present and equal to a member lower bound. -/
theorem c10_summarize_trains_witness :
    (_summarize_trains (.arr [
        .obj [("prices", .arr [.obj [("num", .str "有"), ("price", .str "553")]])],
        .str "junk"])).get "count" = .num 2 ∧
    (∃ m : ℚ,
      (_summarize_trains (.arr [
          .obj [("prices", .arr [.obj [("num", .str "有"), ("price", .str "553")]])],
          .str "junk"])).get "min_price" = .num m ∧
      m ∈ allPrices [
          .obj [("prices", .arr [.obj [("num", .str "有"), ("price", .str "553")]])],
          .str "junk"] ∧
      ∀ q ∈ allPrices [
          .obj [("prices", .arr [.obj [("num", .str "有"), ("price", .str "553")]])],
          .str "junk"], m ≤ q) ∧
    _summarize_trains (.str "oops") =
      .obj [("count", .num 0), ("min_price", .null),
            ("available_train_count", .num 0)] := by
  refine ⟨(c10_summarize_trains_characterization.1 _).1, ?_, ?_⟩
  · exact (c10_summarize_trains_characterization.1 _).2.2.2.2 (by decide)
  · exact c10_summarize_trains_characterization.2 (.str "oops") rfl

/-! ## Rail retry (transport_agent._get_train_info_with_retry) -/

/-- One attempt of `query_12306_trains` as seen by the retry loop: either the
coroutine raised (the except branch) or it returned a result dict. -/
inductive TrainAttempt where
  | exn (msg : String)
  | reply (r : JValue)

/-- An attempt counts as successful when it returned a dict whose "success"
entry is truthy (transport_agent.py line 223). -/
def attemptOk : TrainAttempt → Bool
  | .exn _ => false
  | .reply r => (r.get "success").truthy

/-- The error captured from one failed attempt (transport_agent.py lines
224-230 and 243). -/
def attemptError : TrainAttempt → JValue
  | .exn msg => .obj [("type", .str "exception"), ("message", .str msg)]
  | .reply r =>
    .obj [("type", .str "api_error"),
          ("message", r.get "error"),
          ("http_status",
            (if (r.get "meta").truthy then r.get "meta" else .obj []).get "status"),
          ("raw", r.get "raw"),
          ("meta", r.get "meta")]

/-- The success dict of `_get_train_info_with_retry` (lines 234-240). -/
def trainOkResult (r : JValue) : JValue :=
  .obj [("ok", .bool true), ("source", .str "12306-mcp"),
        ("raw", r.get "data"), ("summary", r.get "summary"),
        ("meta", r.get "meta")]

/-- The failure dict of `_get_train_info_with_retry` (lines 246-250),
substituting the unknown-error shape when no attempt error was recorded. -/
def trainFailResult (lastError : JValue) : JValue :=
  .obj [("ok", .bool false), ("source", .str "12306-mcp"),
        ("error",
          if lastError.truthy then lastError
          else .obj [("type", .str "unknown"),
                     ("message", .str "train query failed")])]

/-- Translation of the retry loop of `_get_train_info_with_retry` (lines
219-250).  `oracle` gives the outcome of the attempt with the given 1-based
number; the result is paired with the backoff delays slept (in seconds) and
the number of provider calls made. -/
def retryLoop (oracle : Nat → TrainAttempt) (attempt remaining : Nat)
    (lastError : JValue) (delays : List ℚ) (calls : Nat) :
    JValue × List ℚ × Nat :=
  match remaining with
  | 0 => (trainFailResult lastError, delays, calls)
  | rem + 1 =>
    match oracle attempt with
    | .exn msg =>
        retryLoop oracle (attempt + 1) rem (attemptError (.exn msg))
          (delays ++ [(2 : ℚ)/5 * attempt]) (calls + 1)
    | .reply r =>
        if (r.get "success").truthy then (trainOkResult r, delays, calls + 1)
        else
          retryLoop oracle (attempt + 1) rem (attemptError (.reply r))
            (delays ++ [(2 : ℚ)/5 * attempt]) (calls + 1)

/-- Translation of `_get_train_info_with_retry` (lines 210-250): attempts are
numbered from 1, `last_error` starts as None. -/
def _get_train_info_with_retry (oracle : Nat → TrainAttempt) (retries : Nat) :
    JValue × List ℚ × Nat :=
  retryLoop oracle 1 retries .null [] 0

lemma retryLoop_calls_le (oracle : Nat → TrainAttempt)
    (attempt remaining : Nat) (lastError : JValue) (delays : List ℚ)
    (calls : Nat) :
    (retryLoop oracle attempt remaining lastError delays calls).2.2 ≤
      calls + remaining := by
  induction remaining generalizing attempt lastError delays calls with
  | zero => simp [retryLoop]
  | succ rem ih =>
    rw [retryLoop]
    cases oracle attempt with
    | exn msg =>
      calc (retryLoop oracle (attempt + 1) rem _ _ (calls + 1)).2.2 ≤
          (calls + 1) + rem := ih _ _ _ _
      _ = calls + (rem + 1) := by omega
    | reply r =>
      by_cases hs : (r.get "success").truthy
      · simp [hs]
      · simp only [hs, if_false, Bool.false_eq_true]
        calc (retryLoop oracle (attempt + 1) rem _ _ (calls + 1)).2.2 ≤
            (calls + 1) + rem := ih _ _ _ _
        _ = calls + (rem + 1) := by omega

lemma retryLoop_step_fail (oracle : Nat → TrainAttempt) (attempt rem : Nat)
    (lastError : JValue) (delays : List ℚ) (calls : Nat)
    (h : attemptOk (oracle attempt) = false) :
    retryLoop oracle attempt (rem + 1) lastError delays calls =
      retryLoop oracle (attempt + 1) rem (attemptError (oracle attempt))
        (delays ++ [(2 : ℚ)/5 * attempt]) (calls + 1) := by
  cases ho : oracle attempt with
  | exn m => rw [retryLoop, ho]
  | reply r =>
    rw [ho] at h
    simp only [attemptOk] at h
    rw [retryLoop, ho]
    simp [h]

lemma retryLoop_step_ok (oracle : Nat → TrainAttempt) (attempt rem : Nat)
    (lastError : JValue) (delays : List ℚ) (calls : Nat) (r : JValue)
    (h : oracle attempt = .reply r) (hs : (r.get "success").truthy = true) :
    retryLoop oracle attempt (rem + 1) lastError delays calls =
      (trainOkResult r, delays, calls + 1) := by
  rw [retryLoop, h]
  simp [hs]

/-- C2: with `retries = 3` the rail query makes at most 3 provider calls; if
the first two attempts fail and the third returns a successful reply, the
result is the Success dict built from the third reply, exactly the two
backoff delays 0.4·1 and 0.4·2 seconds were slept, and 3 calls were made; if
all three attempts fail, the result is the Failure dict carrying only the
third (last) attempt's error, with delays 0.4·1, 0.4·2, 0.4·3. -/
theorem c2_rail_retry_behaviour (oracle : Nat → TrainAttempt) :
    (_get_train_info_with_retry oracle 3).2.2 ≤ 3 ∧
    (attemptOk (oracle 1) = false → attemptOk (oracle 2) = false →
      ∀ r, oracle 3 = .reply r → (r.get "success").truthy = true →
        _get_train_info_with_retry oracle 3 =
          (trainOkResult r, [2/5, 4/5], 3)) ∧
    (attemptOk (oracle 1) = false → attemptOk (oracle 2) = false →
      attemptOk (oracle 3) = false →
        _get_train_info_with_retry oracle 3 =
          (trainFailResult (attemptError (oracle 3)), [2/5, 4/5, 6/5], 3)) := by
  refine ⟨?_, ?_, ?_⟩
  · exact retryLoop_calls_le oracle 1 3 .null [] 0
  · intro h1 h2 r h3 hsucc
    unfold _get_train_info_with_retry
    rw [show (3 : Nat) = 2 + 1 from rfl, retryLoop_step_fail oracle 1 2 _ _ _ h1]
    rw [show (2 : Nat) = 1 + 1 from rfl, retryLoop_step_fail oracle 2 1 _ _ _ h2]
    rw [show (1 : Nat) = 0 + 1 from rfl, retryLoop_step_ok oracle 3 0 _ _ _ r h3 hsucc]
    norm_num
  · intro h1 h2 h3
    unfold _get_train_info_with_retry
    rw [show (3 : Nat) = 2 + 1 from rfl, retryLoop_step_fail oracle 1 2 _ _ _ h1]
    rw [show (2 : Nat) = 1 + 1 from rfl, retryLoop_step_fail oracle 2 1 _ _ _ h2]
    rw [show (1 : Nat) = 0 + 1 from rfl, retryLoop_step_fail oracle 3 0 _ _ _ h3]
    rw [retryLoop]
    norm_num

/-- C2 witness: an oracle that raises on the first two attempts and succeeds
on the third yields the Success dict with delays 0.4 and 0.8 after three
calls. -/
theorem c2_rail_retry_behaviour_witness :
    _get_train_info_with_retry
        (fun i => if i = 3
          then .reply (.obj [("success", .bool true), ("data", .arr [.str "G1"])])
          else .exn "boom") 3 =
      (trainOkResult (.obj [("success", .bool true), ("data", .arr [.str "G1"])]),
       [2/5, 4/5], 3) :=
  (c2_rail_retry_behaviour _).2.1 (by decide) (by decide) _ rfl (by decide)

/-! ## Data-sufficiency gate (transport_agent._no_data_or_error_summary and
the analysis dispatch in get_transport_plan) -/

/-- Model of Python `str(v)` as used in f-string interpolation: strings pass
through unquoted, every other value renders as its repr. -/
def pyToStr : JValue → String
  | .str s => s
  | v => pyRepr v

/-- Translation of `_is_nonempty_list` (transport_agent.py lines 74-75). -/
def _is_nonempty_list (v : JValue) : Bool :=
  match v with
  | .arr l => !l.isEmpty
  | _ => false

/-- Translation of `_is_valid_yyyy_mm_dd` (lines 70-71): a string matching
the anchored date regex after stripping. -/
def _is_valid_yyyy_mm_dd (v : JValue) : Bool :=
  match v with
  | .str s => matchesDateShape (pyStrip s)
  | _ => false

/-- Normalization `x if isinstance(x, dict) else {}` used on lines 306-307. -/
def dictOrEmpty (v : JValue) : JValue :=
  if v.isObj then v else .obj []

/-- Translation of `_no_data_or_error_summary` (transport_agent.py lines
294-338): `none` means at least one provider has raw data and the LLM may be
invoked; otherwise the fixed local no-data text. -/
def _no_data_or_error_summary (departure destination date : String)
    (results profile : JValue) : Option String :=
  let train := dictOrEmpty (results.get "train")
  let flight := dictOrEmpty (results.get "flight")
  let train_ok := _is_nonempty_list (train.get "raw")
  let flight_ok := _is_nonempty_list (flight.get "raw")
  if train_ok || flight_ok then none
  else
    let parts : List String :=
      ["【数据不足】暂时没有拿到可用的火车/航班列表，因此无法基于真实数据做比价与推荐。",
       "出发地：" ++ departure ++ "；目的地：" ++ destination ++ "；出发日期：" ++ date] ++
      (if (train.get "error").truthy then
        ["火车查询：失败（" ++ pyToStr (train.get "error") ++ "）"]
       else ["火车查询：无返回数据（可能是接口暂时不可用或被限流）"]) ++
      (if (flight.get "error").truthy then
        ["航班查询：失败/无方案（" ++ pyToStr (flight.get "error") ++ "）"]
       else ["航班查询：无返回数据"]) ++
      ["【下一步建议】",
       "1) 我可以立刻为你重试一次查询（火车 502/超时通常是暂时性的）。",
       "2) 如果航班持续无数据，可能需要你确认出发/到达城市是否匹配航班数据源，或换一天出发日期再试。",
       "3) 若你希望我只查火车或只查航班，也可以告诉我。"] ++
      (if _is_valid_yyyy_mm_dd (profile.get "return_date") then
        ["补充：你还提供了返程日期 " ++ pyToStr (profile.get "return_date") ++
         "，需要我把回程交通也一起比价吗？"]
       else [])
    some (joinWith "\n" parts)

/-- Outcome of one call to the summarization collaborator: the text it
returned, or the exception it raised. -/
inductive LLMOutcome where
  | text (t : String)
  | raise (msg : String)

/-- Translation of the tail of `_analyze_transport_options_text` (lines
388-402): strip the reply, substitute the fixed notice when it is empty, and
turn an exception into the literal failure string. -/
def llmOutcomeText : LLMOutcome → String
  | .text t =>
    if pyStrip t = "" then "已获取到交通数据，但模型未返回分析文本。" else pyStrip t
  | .raise e => "分析失败：" ++ e

/-- Translation of the analysis dispatch of `get_transport_plan` (lines
185-201), instrumented with the number of summarization-collaborator calls
and whether the no-data template was used. -/
def transportAnalysis (departure destination date : String)
    (results profile : JValue) (llm : LLMOutcome) : String × Nat × Bool :=
  match _no_data_or_error_summary departure destination date results profile with
  | some t => (t, 0, true)
  | none => (llmOutcomeText llm, 1, false)

lemma dictOrEmpty_get (v : JValue) (k : String) :
    (dictOrEmpty v).get k = v.get k := by
  cases v <;> simp [dictOrEmpty, JValue.isObj, JValue.get, JValue.find]

lemma strHasPre_of_append (p s : String) : strHasPre p (p ++ s) = true := by
  simp [strHasPre, List.isPrefixOf_iff_prefix]

lemma joinWith_head_pre (sep a b : String) (l : List String) :
    ∃ tail, joinWith sep ((a ++ b) :: l) = a ++ tail := by
  cases l with
  | nil => exact ⟨b, rfl⟩
  | cons x xs =>
    refine ⟨b ++ sep ++ joinWith sep (x :: xs), ?_⟩
    show (a ++ b) ++ sep ++ joinWith sep (x :: xs) = _
    simp [String.append_assoc]

lemma noData_none_iff (departure destination date : String)
    (results profile : JValue) :
    _no_data_or_error_summary departure destination date results profile = none ↔
      (_is_nonempty_list ((results.get "train").get "raw") = true ∨
       _is_nonempty_list ((results.get "flight").get "raw") = true) := by
  unfold _no_data_or_error_summary
  simp only [dictOrEmpty_get]
  by_cases ht : _is_nonempty_list ((results.get "train").get "raw") = true <;>
    by_cases hf : _is_nonempty_list ((results.get "flight").get "raw") = true <;>
    simp [ht, hf]

lemma noData_some_shape (departure destination date : String)
    (results profile : JValue)
    (ht : _is_nonempty_list ((results.get "train").get "raw") = false)
    (hf : _is_nonempty_list ((results.get "flight").get "raw") = false) :
    ∃ tail, _no_data_or_error_summary departure destination date results profile =
      some ("【数据不足】" ++ tail) := by
  unfold _no_data_or_error_summary
  simp only [dictOrEmpty_get, ht, hf, Bool.or_self, Bool.false_eq_true,
    if_false, List.cons_append]
  rw [show ("【数据不足】暂时没有拿到可用的火车/航班列表，因此无法基于真实数据做比价与推荐。" : String) =
    "【数据不足】" ++ "暂时没有拿到可用的火车/航班列表，因此无法基于真实数据做比价与推荐。" from rfl]
  obtain ⟨tail, htail⟩ := joinWith_head_pre "\n" "【数据不足】"
    "暂时没有拿到可用的火车/航班列表，因此无法基于真实数据做比价与推荐。" _
  rw [htail]
  exact ⟨tail, rfl⟩

/-- C1: the summarization collaborator is invoked (exactly once, and the
no-data template unused) iff at least one provider result carries a non-empty
raw list; when neither does, zero collaborator calls are made, the leg text
is the locally built message starting with 【数据不足】, and the outcome is
independent of the collaborator; when both carry data, exactly one call is
made and the template is never used. -/
theorem c1_data_sufficiency_gate (departure destination date : String)
    (results profile : JValue) (llm : LLMOutcome) :
    (((transportAnalysis departure destination date results profile llm).2.1 = 1 ∧
      (transportAnalysis departure destination date results profile llm).2.2 = false) ↔
      (_is_nonempty_list ((results.get "train").get "raw") = true ∨
       _is_nonempty_list ((results.get "flight").get "raw") = true)) ∧
    ((_is_nonempty_list ((results.get "train").get "raw") = false ∧
      _is_nonempty_list ((results.get "flight").get "raw") = false) →
      (transportAnalysis departure destination date results profile llm).2.1 = 0 ∧
      (transportAnalysis departure destination date results profile llm).2.2 = true ∧
      strHasPre "【数据不足】"
        (transportAnalysis departure destination date results profile llm).1 = true ∧
      ∀ llm2, transportAnalysis departure destination date results profile llm2 =
        transportAnalysis departure destination date results profile llm) ∧
    ((_is_nonempty_list ((results.get "train").get "raw") = true ∧
      _is_nonempty_list ((results.get "flight").get "raw") = true) →
      (transportAnalysis departure destination date results profile llm).2.1 = 1 ∧
      (transportAnalysis departure destination date results profile llm).2.2 = false) := by
  refine ⟨?_, ?_, ?_⟩
  · constructor
    · intro hcf
      cases hsum : _no_data_or_error_summary departure destination date results profile with
      | none => exact (noData_none_iff departure destination date results profile).mp hsum
      | some t =>
        exfalso
        have h1 := hcf.1
        simp [transportAnalysis, hsum] at h1
    · intro hor
      have hnone := (noData_none_iff departure destination date results profile).mpr hor
      simp [transportAnalysis, hnone]
  · rintro ⟨ht, hf⟩
    obtain ⟨tail, hsome⟩ :=
      noData_some_shape departure destination date results profile ht hf
    refine ⟨?_, ?_, ?_, ?_⟩
    · rw [transportAnalysis, hsome]
    · rw [transportAnalysis, hsome]
    · rw [transportAnalysis, hsome]
      exact strHasPre_of_append _ _
    · intro llm2
      rw [transportAnalysis, hsome, transportAnalysis, hsome]
  · rintro ⟨ht, hf⟩
    have hnone := (noData_none_iff departure destination date results profile).mpr (Or.inl ht)
    simp [transportAnalysis, hnone]

/-- C1 witness: for results where both providers failed (no raw lists), the
gate yields zero collaborator calls and the template; the hypotheses of the
gate theorem hold at this concrete input. -/
theorem c1_data_sufficiency_gate_witness :
    (transportAnalysis "北京" "上海" "2025-03-10"
        (.obj [("train", .obj [("ok", .bool false)]),
               ("flight", .obj [("ok", .bool false)])])
        (.obj []) (.text "ignored")).2.1 = 0 ∧
    (transportAnalysis "北京" "上海" "2025-03-10"
        (.obj [("train", .obj [("ok", .bool false)]),
               ("flight", .obj [("ok", .bool false)])])
        (.obj []) (.text "ignored")).2.2 = true :=
  let h := (c1_data_sufficiency_gate "北京" "上海" "2025-03-10"
    (.obj [("train", .obj [("ok", .bool false)]),
           ("flight", .obj [("ok", .bool false)])])
    (.obj []) (.text "ignored")).2.1 ⟨by decide, by decide⟩
  ⟨h.1, h.2.1⟩

/-! ## Report merging (transport_agent._merge_two_legs_text) -/

/-- Translation of `_merge_two_legs_text` (transport_agent.py lines
413-434). -/
def _merge_two_legs_text (outbound_text : String) (return_text : Option String)
    (outbound : String × String × String)
    (inbound : Option (String × String × String)) : String :=
  pyStrip (joinWith "\n"
    (["【去程】" ++ outbound.1 ++ " → " ++ outbound.2.1 ++ "（" ++ outbound.2.2 ++ "）",
      if outbound_text = "" then "（去程暂无可用分析文本）" else pyStrip outbound_text] ++
     (match return_text, inbound with
      | some rt, some inb =>
        ["",
         "【返程】" ++ inb.1 ++ " → " ++ inb.2.1 ++ "（" ++ inb.2.2 ++ "）",
         if rt = "" then "（返程暂无可用分析文本）" else pyStrip rt]
      | _, _ => [])))

/-- Claim-side merge shape, written from the spec's words: a labeled
outbound block, then (for a present inbound leg with return text) a blank
line and a labeled inbound block, with the leg summaries included
verbatim. -/
def mergeSpecText (outboundText : String) (returnText : Option String)
    (outbound : String × String × String)
    (inbound : Option (String × String × String)) : String :=
  "【去程】" ++ outbound.1 ++ " → " ++ outbound.2.1 ++ "（" ++ outbound.2.2 ++ "）" ++
    "\n" ++ outboundText ++
  (match returnText, inbound with
   | some rt, some inb =>
     "\n\n" ++ "【返程】" ++ inb.1 ++ " → " ++ inb.2.1 ++ "（" ++ inb.2.2 ++ "）" ++
       "\n" ++ rt
   | _, _ => "")

lemma headSpec (z w : String) (h : ∃ c r, z.data = c :: r ∧ isPySpace c = false) :
    ∃ c r, (z ++ w).data = c :: r ∧ isPySpace c = false := by
  obtain ⟨c, r, hcr, hc⟩ := h
  exact ⟨c, r ++ w.data, by simp [hcr], hc⟩

lemma revHead_append (z w : String)
    (h : ∃ c r, w.data.reverse = c :: r ∧ isPySpace c = false) :
    ∃ c r, (z ++ w).data.reverse = c :: r ∧ isPySpace c = false := by
  obtain ⟨c, r, hcr, hc⟩ := h
  exact ⟨c, r ++ z.data.reverse, by simp [hcr], hc⟩

lemma headOutLabel :
    ∃ c r, ("【去程】" : String).data = c :: r ∧ isPySpace c = false :=
  ⟨'【', ['去', '程', '】'], by decide, by decide⟩

lemma stripList_noop (l : List Char)
    (h1 : ∃ c r, l = c :: r ∧ isPySpace c = false)
    (h2 : ∃ c r, l.reverse = c :: r ∧ isPySpace c = false) :
    stripList l = l := by
  obtain ⟨c1, r1, e1, hc1⟩ := h1
  obtain ⟨c2, r2, e2, hc2⟩ := h2
  have d1 : l.dropWhile isPySpace = l := by
    rw [e1, List.dropWhile_cons, hc1]
    simp
  have d2 : l.reverse.dropWhile isPySpace = l.reverse := by
    rw [e2, List.dropWhile_cons, hc2]
    simp
  rw [stripList, d1, d2, List.reverse_reverse]

lemma pyStrip_noop (s : String)
    (h1 : ∃ c r, s.data = c :: r ∧ isPySpace c = false)
    (h2 : ∃ c r, s.data.reverse = c :: r ∧ isPySpace c = false) :
    pyStrip s = s := by
  apply String.ext
  show stripList s.data = s.data
  exact stripList_noop s.data h1 h2

lemma pyStrip_fix_rev (s : String) (h : pyStrip s = s) (hne : s ≠ "") :
    ∃ c r, s.data.reverse = c :: r ∧ isPySpace c = false := by
  have hdata : stripList s.data = s.data := congrArg String.data h
  have hnil : s.data ≠ [] := by
    intro hd
    exact hne (String.ext hd)
  set l := s.data with hl
  set l1 := l.dropWhile isPySpace with hl1
  set l2 := l1.reverse.dropWhile isPySpace with hl2
  have hlen2 : l2.reverse.length = l.length := congrArg List.length hdata
  have hle1 : l1.length ≤ l.length :=
    ((List.dropWhile_suffix isPySpace).sublist).length_le
  have hle2 : l2.length ≤ l1.length := by
    calc l2.length ≤ l1.reverse.length :=
      ((List.dropWhile_suffix isPySpace).sublist).length_le
    _ = l1.length := List.length_reverse _
  have hlen2' : l2.length = l.length := by
    rw [← hlen2, List.length_reverse]
  have heq1 : l1.length = l.length := by omega
  have heq2 : l2.length = l1.reverse.length := by
    rw [List.length_reverse]
    omega
  have e1 : l1 = l :=
    ((List.dropWhile_suffix isPySpace).sublist).eq_of_length heq1
  have e2 : l2 = l1.reverse :=
    ((List.dropWhile_suffix isPySpace).sublist).eq_of_length heq2
  have e3 : l.reverse.dropWhile isPySpace = l.reverse := by
    rw [← e1]
    exact e2
  have hrevnil : l.reverse ≠ [] := by
    simpa using hnil
  cases hrev : l.reverse with
  | nil => exact absurd hrev hrevnil
  | cons c r =>
    refine ⟨c, r, rfl, ?_⟩
    by_contra hc
    simp only [Bool.not_eq_false] at hc
    rw [hrev, List.dropWhile_cons, hc, if_pos rfl] at e3
    have hle3 : (r.dropWhile isPySpace).length ≤ r.length :=
      ((List.dropWhile_suffix isPySpace).sublist).length_le
    have hlen3 := congrArg List.length e3
    simp at hlen3
    omega

/-- C9 counterexample: the claim's verbatim-inclusion (and the claim-shaped
merge text) fails for the summary " x ": the merge strips surrounding
whitespace, so " x " does not occur contiguously in the output and the output
differs from the claim-shaped text. -/
theorem c9_merge_not_verbatim :
    strHasSub " x "
      (_merge_two_legs_text " x " none ("A", "B", "2025-03-10") none) = false ∧
    _merge_two_legs_text " x " none ("A", "B", "2025-03-10") none ≠
      mergeSpecText " x " none ("A", "B", "2025-03-10") none := by
  exact ⟨by decide, by decide⟩

/-- C9 (amended): for leg summary texts that are nonempty and carry no
surrounding whitespace, the merge output is exactly the fixed structure of
the claim — labeled outbound block, then exactly when both an inbound tuple
and a return text are present, a blank line and a labeled inbound block, leg
texts verbatim and in order; summaries with surrounding whitespace are
stripped and an empty summary is replaced by a fixed placeholder. -/
theorem c9_merge_fixed_structure (ot : String) (rt : Option String)
    (o : String × String × String) (i : Option (String × String × String))
    (hot : pyStrip ot = ot) (hone : ot ≠ "")
    (hrt : ∀ t, rt = some t → pyStrip t = t ∧ t ≠ "") :
    _merge_two_legs_text ot rt o i = mergeSpecText ot rt o i := by
  have hotrev := pyStrip_fix_rev ot hot hone
  cases rt with
  | none =>
    cases i with
    | none =>
      simp only [_merge_two_legs_text, List.append_nil, joinWith]
      rw [if_neg hone, hot]
      refine Eq.trans (pyStrip_noop _ ?_ ?_) ?_
      · repeat apply headSpec
        exact headOutLabel
      · repeat apply revHead_append
        exact hotrev
      · simp only [mergeSpecText, String.append_empty]
    | some inb =>
      simp only [_merge_two_legs_text, List.append_nil, joinWith]
      rw [if_neg hone, hot]
      refine Eq.trans (pyStrip_noop _ ?_ ?_) ?_
      · repeat apply headSpec
        exact headOutLabel
      · repeat apply revHead_append
        exact hotrev
      · simp only [mergeSpecText, String.append_empty]
  | some t =>
    obtain ⟨htt, htne⟩ := hrt t rfl
    have httrev := pyStrip_fix_rev t htt htne
    cases i with
    | none =>
      simp only [_merge_two_legs_text, List.append_nil, joinWith]
      rw [if_neg hone, hot]
      refine Eq.trans (pyStrip_noop _ ?_ ?_) ?_
      · repeat apply headSpec
        exact headOutLabel
      · repeat apply revHead_append
        exact hotrev
      · simp only [mergeSpecText, String.append_empty]
    | some inb =>
      simp only [_merge_two_legs_text, List.cons_append, List.nil_append,
        joinWith]
      rw [if_neg hone, hot, if_neg htne, htt]
      refine Eq.trans (pyStrip_noop _ ?_ ?_) ?_
      · repeat apply headSpec
        exact headOutLabel
      · repeat apply revHead_append
        exact httrev
      · simp only [mergeSpecText]
        rw [show ("\n\n" : String) = "\n" ++ "" ++ "\n" from rfl]
        simp only [String.append_assoc]

/-- C9 witness: a round-trip merge of two plain summaries produces exactly
the labeled fixed-structure text. -/
theorem c9_merge_fixed_structure_witness :
    _merge_two_legs_text "坐高铁" (some "坐飞机") ("北京", "上海", "2025-03-10")
        (some ("上海", "北京", "2025-03-12")) =
      mergeSpecText "坐高铁" (some "坐飞机") ("北京", "上海", "2025-03-10")
        (some ("上海", "北京", "2025-03-12")) :=
  c9_merge_fixed_structure "坐高铁" (some "坐飞机") ("北京", "上海", "2025-03-10")
    (some ("上海", "北京", "2025-03-12")) (by decide) (by decide)
    (fun t ht => by cases ht; exact ⟨by decide, by decide⟩)

/-! ## Rail provider client (mcp_tools.MCPTransportClient.query_12306_trains) -/

/-- Translation of the key scan inside `_pick_station_code` for dicts: the
first candidate key holding a nonempty string wins. -/
def pickKey (v : JValue) : List String → Option String
  | [] => none
  | k :: ks =>
    match v.get k with
    | .str s => if pyStrip s = "" then pickKey v ks else some (pyStrip s)
    | _ => pickKey v ks

/-- Translation of `_pick_station_code` (mcp_tools.py lines 9-22). -/
def _pick_station_code : JValue → Option String
  | .null => none
  | .str s => if pyStrip s = "" then none else some (pyStrip s)
  | .obj fs =>
      pickKey (.obj fs)
        ["station_code", "stationCode", "code", "telecode",
         "station_telecode", "stationTelecode"]
  | _ => none

/-- Translation of `BaseMCPClient._extract_result_json` (mcp_base.py lines
29-40), with `json.loads` supplied as the oracle `jparse` (`none` models a
parse exception). -/
def _extract_result_json (jparse : String → Option JValue)
    (rpc_data : JValue) : JValue :=
  if rpc_data.isObj = false then .null
  else
    let result := rpc_data.get "result"
    match result.get "content" with
    | .arr (c0 :: _) =>
      if result.isObj then
        match c0.get "text" with
        | .str s => (jparse s).getD (.str s)
        | _ => result
      else result
    | _ => result

/-- Python `a or b` on dynamic values. -/
def jOr (a b : JValue) : JValue := if a.truthy then a else b

/-- Translation of the inner `_get_tickets` closure of `query_12306_trains`
(mcp_tools.py lines 60-97), over the `call_tool` oracle `ct`. -/
def _get_tickets (jparse : String → Option JValue)
    (ct : String → JValue → JValue) (date fc tc : String) : JValue :=
  let r := ct "get-tickets"
    (.obj [("date", .str date), ("fromStation", .str fc),
           ("toStation", .str tc), ("format", .str "json")])
  if (r.get "success").truthy = false then r
  else
    let result_obj := _extract_result_json jparse (r.getD "data" (.obj []))
    let trains : List JValue :=
      match result_obj with
      | .arr l => l
      | .obj fs =>
        match (JValue.obj fs).get "data" with
        | .arr l => l
        | _ => []
      | _ => []
    .obj [("success", .bool true),
          ("data", .arr trains),
          ("summary", _summarize_trains (.arr trains)),
          ("meta", .obj [("fromStation", .str fc), ("toStation", .str tc),
            ("date", .str date),
            ("content_type",
              (jOr (r.get "meta") (.obj [])).get "content_type")])]

/-- Lookup in the `{x.get("city"): x for x in citys if isinstance(x, dict)}`
comprehension (mcp_tools.py line 49): the last dict with the matching city
wins, absence gives None. -/
def cityLookup (items : List JValue) (city : String) : JValue :=
  ((items.filter JValue.isObj).reverse.find? (fun x =>
      match x.get "city" with
      | .str s => s == city
      | _ => false)).getD .null

/-- Translation of the station-code resolution stage of `query_12306_trains`
(mcp_tools.py lines 37-58): an early-return error dict or the two
representative station codes. -/
def stationCodesStep (jparse : String → Option JValue)
    (ct : String → JValue → JValue) (departure destination : String) :
    JValue ⊕ (String × String) :=
  let codes := ct "get-station-code-of-citys"
    (.obj [("citys", .str (departure ++ "|" ++ destination))])
  if (codes.get "success").truthy = false then .inl codes
  else
    let codes_result := _extract_result_json jparse (codes.getD "data" (.obj []))
    if codes_result.isObj = false then
      .inl (.obj [("success", .bool false), ("error", .str "站点代码返回格式异常"),
                  ("raw", codes_result), ("meta", codes.get "meta")])
    else
      let pair : Option String × Option String :=
        match codes_result.get "citys" with
        | .arr items =>
          (_pick_station_code (cityLookup items departure),
           _pick_station_code (cityLookup items destination))
        | _ =>
          (_pick_station_code (jOr (codes_result.get "fromStation")
             (jOr (codes_result.get "from") (codes_result.get departure))),
           _pick_station_code (jOr (codes_result.get "toStation")
             (jOr (codes_result.get "to") (codes_result.get destination))))
      match pair with
      | (some fc, some tc) => .inr (fc, tc)
      | _ =>
        .inl (.obj [("success", .bool false),
                    ("error", .str "无法解析代表站 station_code"),
                    ("raw", codes_result), ("meta", codes.get "meta")])

/-- Translation of `setdefault("meta", {})` followed by
`r["meta"]["fallback"] = marker` (mcp_tools.py lines 104-105 etc.). -/
def setFallback (v : JValue) (marker : String) : JValue :=
  let m := match v.find "meta" with
    | some mv => mv
    | none => .obj []
  v.set "meta" (m.set "fallback" (.str marker))

/-- Translation of the inner arrival-station loop of the city-station
fallback (mcp_tools.py lines 130-138), recording the probed pairs. -/
def probeInner (gt : String → String → JValue) (fc : String) :
    List JValue → Option JValue × List (String × String)
  | [] => (none, [])
  | ts :: rest =>
    match _pick_station_code ts with
    | none => probeInner gt fc rest
    | some tc =>
      let r := gt fc tc
      if (r.get "success").truthy && (r.get "data").truthy then (some r, [(fc, tc)])
      else
        let next := probeInner gt fc rest
        (next.1, (fc, tc) :: next.2)

/-- Translation of the outer departure-station loop (mcp_tools.py lines
126-138). -/
def probeOuterAux (gt : String → String → JValue) :
    List JValue → List JValue → Option JValue × List (String × String)
  | [], _ => (none, [])
  | ds :: rest, arrList =>
    match _pick_station_code ds with
    | none => probeOuterAux gt rest arrList
    | some fc =>
      match probeInner gt fc arrList with
      | (some r, probed) => (some r, probed)
      | (none, probed) =>
        let next := probeOuterAux gt rest arrList
        (next.1, probed ++ next.2)

/-- The nested probe loops with their exit annotations (mcp_tools.py lines
126-142). -/
def probeOuter (gt : String → String → JValue) (first : JValue)
    (depList arrList : List JValue) : JValue × List (String × String) :=
  match probeOuterAux gt depList arrList with
  | (some r, probed) => (setFallback r "tried_top5_city_stations", probed)
  | (none, probed) =>
    (setFallback first "tried_top5_city_stations_but_empty", probed)

/-- Translation of the city-station fallback stage (mcp_tools.py lines
108-142), paired with the list of (from, to) station pairs probed. -/
def cityFallback (jparse : String → Option JValue)
    (ct : String → JValue → JValue) (date : String) (first : JValue)
    (departure destination : String) : JValue × List (String × String) :=
  let dep_stations := ct "get-stations-code-in-city" (.obj [("city", .str departure)])
  let arr_stations := ct "get-stations-code-in-city" (.obj [("city", .str destination)])
  if !(dep_stations.get "success").truthy || !(arr_stations.get "success").truthy then
    (setFallback first "failed_to_get_city_stations", [])
  else
    let dep_list := _extract_result_json jparse (dep_stations.getD "data" (.obj []))
    let arr_list := _extract_result_json jparse (arr_stations.getD "data" (.obj []))
    match dep_list, arr_list with
    | .arr dl, .arr al =>
      probeOuter (fun fc tc => _get_tickets jparse ct date fc tc) first
        (dl.take 5) (al.take 5)
    | _, _ => (setFallback first "city_stations_format_invalid", [])

/-- Translation of `query_12306_trains` (mcp_tools.py lines 31-142), paired
with the list of fallback pairs probed. -/
def query_12306_trains (jparse : String → Option JValue)
    (ct : String → JValue → JValue) (departure destination date : String) :
    JValue × List (String × String) :=
  match stationCodesStep jparse ct departure destination with
  | .inl err => (err, [])
  | .inr (fc, tc) =>
    let first := _get_tickets jparse ct date fc tc
    if (first.get "success").truthy = false then (first, [])
    else if (first.get "data").truthy then
      (setFallback first "representative_station", [])
    else cityFallback jparse ct date first departure destination

/-- Declarative side: the ordered candidate (from, to) pairs of the
city-station fallback. -/
def candPairs (depList arrList : List JValue) : List (String × String) :=
  depList.flatMap (fun ds =>
    match _pick_station_code ds with
    | none => []
    | some fc =>
      arrList.filterMap (fun ts =>
        (_pick_station_code ts).map (fun tc => (fc, tc))))

/-- Declarative side: a probed pair that ends the fallback (successful call
with a non-empty ticket list). -/
def goodPair (gt : String → String → JValue) (p : String × String) : Bool :=
  ((gt p.1 p.2).get "success").truthy && ((gt p.1 p.2).get "data").truthy

/-- Reference scan over a candidate list: stop at the first good pair. -/
def scanProbes (gt : String → String → JValue) :
    List (String × String) → Option (String × String) × List (String × String)
  | [] => (none, [])
  | p :: rest =>
    if goodPair gt p then (some p, [p])
    else
      let next := scanProbes gt rest
      (next.1, p :: next.2)


lemma probeInner_eq (gt : String → String → JValue) (fc : String)
    (al : List JValue) :
    probeInner gt fc al =
      (((scanProbes gt (al.filterMap (fun ts =>
          (_pick_station_code ts).map (fun tc => (fc, tc))))).1).map
            (fun p => gt p.1 p.2),
       (scanProbes gt (al.filterMap (fun ts =>
          (_pick_station_code ts).map (fun tc => (fc, tc))))).2) := by
  induction al with
  | nil => simp [probeInner, scanProbes]
  | cons ts rest ih =>
    cases hp : _pick_station_code ts with
    | none => simp [probeInner, hp, List.filterMap_cons, ih]
    | some tc =>
      have hgp : goodPair gt (fc, tc) =
          (((gt fc tc).get "success").truthy && ((gt fc tc).get "data").truthy) :=
        rfl
      by_cases hg :
          (((gt fc tc).get "success").truthy && ((gt fc tc).get "data").truthy) = true
      · simp [probeInner, hp, List.filterMap_cons, scanProbes, hgp, hg]
      · have hg' : (((gt fc tc).get "success").truthy &&
            ((gt fc tc).get "data").truthy) = false := by simpa using hg
        simp [probeInner, hp, List.filterMap_cons, scanProbes, hgp, hg', ih]

lemma scanProbes_append (gt : String → String → JValue)
    (l1 l2 : List (String × String)) :
    scanProbes gt (l1 ++ l2) =
      match scanProbes gt l1 with
      | (some p, pr) => (some p, pr)
      | (none, pr) => ((scanProbes gt l2).1, pr ++ (scanProbes gt l2).2) := by
  induction l1 with
  | nil => simp [scanProbes]
  | cons p rest ih =>
    by_cases hg : goodPair gt p
    · simp [scanProbes, hg]
    · have hg' : goodPair gt p = false := by simpa using hg
      rcases hs : scanProbes gt rest with ⟨o, pr⟩
      rw [hs] at ih
      cases o with
      | some v => simp [List.cons_append, scanProbes, hg', ih, hs]
      | none => simp [List.cons_append, scanProbes, hg', ih, hs]

lemma probeOuterAux_eq (gt : String → String → JValue)
    (dl al : List JValue) :
    probeOuterAux gt dl al =
      (((scanProbes gt (candPairs dl al)).1).map (fun p => gt p.1 p.2),
       (scanProbes gt (candPairs dl al)).2) := by
  induction dl with
  | nil => simp [probeOuterAux, candPairs, scanProbes]
  | cons ds rest ih =>
    cases hp : _pick_station_code ds with
    | none =>
      simp [probeOuterAux, hp, candPairs, List.flatMap_cons, ih]
    | some fc =>
      have hcand : candPairs (ds :: rest) al =
          (al.filterMap (fun ts =>
            (_pick_station_code ts).map (fun tc => (fc, tc)))) ++
          candPairs rest al := by
        simp [candPairs, List.flatMap_cons, hp]
      rw [probeOuterAux, hp]
      simp only [probeInner_eq, hcand, scanProbes_append]
      rcases hs : scanProbes gt (al.filterMap (fun ts =>
          (_pick_station_code ts).map (fun tc => (fc, tc)))) with ⟨o, pr⟩
      cases o with
      | some p => simp
      | none => simp [ih]

lemma scanProbes_char (gt : String → String → JValue)
    (l : List (String × String)) :
    scanProbes gt l =
      (l.find? (goodPair gt),
       match l.find? (goodPair gt) with
       | some p => l.takeWhile (fun q => !goodPair gt q) ++ [p]
       | none => l) := by
  induction l with
  | nil => simp [scanProbes]
  | cons p rest ih =>
    by_cases hg : goodPair gt p
    · simp [scanProbes, hg, List.find?_cons_of_pos _ hg, List.takeWhile_cons]
    · have hg' : goodPair gt p = false := by simpa using hg
      have hfind : List.find? (goodPair gt) (p :: rest) =
          List.find? (goodPair gt) rest :=
        List.find?_cons_of_neg _ (by simp [hg'])
      rw [scanProbes, if_neg (by simp [hg']), ih, hfind]
      cases hf : List.find? (goodPair gt) rest with
      | none => simp [List.takeWhile_cons, hg']
      | some v => simp [List.takeWhile_cons, hg']

lemma scanProbes_len (gt : String → String → JValue)
    (l : List (String × String)) :
    (scanProbes gt l).2.length ≤ l.length := by
  induction l with
  | nil => simp [scanProbes]
  | cons p rest ih =>
    by_cases hg : goodPair gt p
    · simp [scanProbes, hg]
    · simp only [scanProbes, hg, if_false, Bool.false_eq_true]
      simpa using Nat.succ_le_succ ih

lemma candPairs_len (dl al : List JValue) :
    (candPairs dl al).length ≤ dl.length * al.length := by
  induction dl with
  | nil => simp [candPairs]
  | cons ds rest ih =>
    cases hp : _pick_station_code ds with
    | none =>
      have hcand : candPairs (ds :: rest) al = candPairs rest al := by
        simp [candPairs, List.flatMap_cons, hp]
      rw [hcand]
      calc (candPairs rest al).length ≤ rest.length * al.length := ih
      _ ≤ (ds :: rest).length * al.length := by
        simp only [List.length_cons]
        exact Nat.mul_le_mul_right _ (Nat.le_succ _)
    | some fc =>
      have hcand : candPairs (ds :: rest) al =
          (al.filterMap (fun ts =>
            (_pick_station_code ts).map (fun tc => (fc, tc)))) ++
          candPairs rest al := by
        simp [candPairs, List.flatMap_cons, hp]
      rw [hcand, List.length_append]
      have h1 : (al.filterMap (fun ts =>
          (_pick_station_code ts).map (fun tc => (fc, tc)))).length ≤ al.length :=
        List.length_filterMap_le _ _
      have h3 : (ds :: rest).length * al.length =
          al.length + rest.length * al.length := by
        simp [List.length_cons, Nat.succ_mul, Nat.add_comm]
      rw [h3]
      omega
/-- C3: whenever the representative-station ticket query succeeds with an
empty list (and the city-station lists are fetched and well-formed), the
fallback probes at most 25 = 5×5 (from, to) pairs, drawn in order from the
first five station codes of each city; if some candidate pair yields a
successful non-empty result, the query returns that first good pair's result
annotated "tried_top5_city_stations" and probes exactly the pairs up to and
including it; if every candidate pair fails to yield data, the original
stage-1 result is returned annotated "tried_top5_city_stations_but_empty"
after probing every candidate pair. -/
theorem c3_city_station_fallback
    (jparse : String → Option JValue) (ct : String → JValue → JValue)
    (departure destination date fc tc : String) (dl al : List JValue)
    (h1 : stationCodesStep jparse ct departure destination = .inr (fc, tc))
    (h2 : ((_get_tickets jparse ct date fc tc).get "success").truthy = true)
    (h3 : ((_get_tickets jparse ct date fc tc).get "data").truthy = false)
    (h4 : ((ct "get-stations-code-in-city"
      (.obj [("city", .str departure)])).get "success").truthy = true)
    (h5 : ((ct "get-stations-code-in-city"
      (.obj [("city", .str destination)])).get "success").truthy = true)
    (h6 : _extract_result_json jparse ((ct "get-stations-code-in-city"
      (.obj [("city", .str departure)])).getD "data" (.obj [])) = .arr dl)
    (h7 : _extract_result_json jparse ((ct "get-stations-code-in-city"
      (.obj [("city", .str destination)])).getD "data" (.obj [])) = .arr al) :
    (query_12306_trains jparse ct departure destination date).2.length ≤ 25 ∧
    (match (candPairs (dl.take 5) (al.take 5)).find?
        (goodPair (fun a b => _get_tickets jparse ct date a b)) with
     | some p =>
       (query_12306_trains jparse ct departure destination date).1 =
         setFallback (_get_tickets jparse ct date p.1 p.2)
           "tried_top5_city_stations" ∧
       (query_12306_trains jparse ct departure destination date).2 =
         (candPairs (dl.take 5) (al.take 5)).takeWhile
           (fun q => !goodPair (fun a b => _get_tickets jparse ct date a b) q)
           ++ [p]
     | none =>
       (query_12306_trains jparse ct departure destination date).1 =
         setFallback (_get_tickets jparse ct date fc tc)
           "tried_top5_city_stations_but_empty" ∧
       (query_12306_trains jparse ct departure destination date).2 =
         candPairs (dl.take 5) (al.take 5)) := by
  have hq1 : query_12306_trains jparse ct departure destination date =
      cityFallback jparse ct date (_get_tickets jparse ct date fc tc)
        departure destination := by
    simp only [query_12306_trains, h1]
    rw [if_neg (by simp [h2]), if_neg (by simp [h3])]
  have hq2 : cityFallback jparse ct date (_get_tickets jparse ct date fc tc)
      departure destination =
      probeOuter (fun a b => _get_tickets jparse ct date a b)
        (_get_tickets jparse ct date fc tc) (dl.take 5) (al.take 5) := by
    simp only [cityFallback]
    rw [if_neg (by simp [h4, h5])]
    simp only [h6, h7]
  have hq := hq1.trans hq2
  have houter := probeOuterAux_eq (fun a b => _get_tickets jparse ct date a b)
    (dl.take 5) (al.take 5)
  have hlen0 : (candPairs (dl.take 5) (al.take 5)).length ≤ 25 := by
    calc (candPairs (dl.take 5) (al.take 5)).length ≤
        (dl.take 5).length * (al.take 5).length := candPairs_len _ _
    _ ≤ 5 * 5 := Nat.mul_le_mul (List.length_take_le _ _) (List.length_take_le _ _)
    _ = 25 := rfl
  have hslen := scanProbes_len (fun a b => _get_tickets jparse ct date a b)
    (candPairs (dl.take 5) (al.take 5))
  cases hfind : (candPairs (dl.take 5) (al.take 5)).find?
      (goodPair (fun a b => _get_tickets jparse ct date a b)) with
  | some p =>
    have hchar2 : scanProbes (fun a b => _get_tickets jparse ct date a b)
        (candPairs (dl.take 5) (al.take 5)) =
        (some p,
         (candPairs (dl.take 5) (al.take 5)).takeWhile
           (fun q => !goodPair (fun a b => _get_tickets jparse ct date a b) q)
           ++ [p]) := by
      rw [scanProbes_char, hfind]
    have hres : query_12306_trains jparse ct departure destination date =
        (setFallback (_get_tickets jparse ct date p.1 p.2)
           "tried_top5_city_stations",
         (candPairs (dl.take 5) (al.take 5)).takeWhile
           (fun q => !goodPair (fun a b => _get_tickets jparse ct date a b) q)
           ++ [p]) := by
      rw [hq]
      simp only [probeOuter, houter, hchar2, Option.map_some']
    rw [hchar2] at hslen
    refine ⟨?_, ?_, ?_⟩
    · rw [hres]
      simp only [List.length_append, List.length_singleton] at hslen ⊢
      omega
    · rw [hres]
    · rw [hres]
  | none =>
    have hchar2 : scanProbes (fun a b => _get_tickets jparse ct date a b)
        (candPairs (dl.take 5) (al.take 5)) =
        (none, candPairs (dl.take 5) (al.take 5)) := by
      rw [scanProbes_char, hfind]
    have hres : query_12306_trains jparse ct departure destination date =
        (setFallback (_get_tickets jparse ct date fc tc)
           "tried_top5_city_stations_but_empty",
         candPairs (dl.take 5) (al.take 5)) := by
      rw [hq]
      simp only [probeOuter, houter, hchar2, Option.map_none']
    refine ⟨?_, ?_, ?_⟩
    · rw [hres]
      exact hlen0
    · rw [hres]
    · rw [hres]

/-- A json-parse oracle that always fails, for the C3 demonstration. -/
def c3DemoParse : String → Option JValue := fun _ => none

/-- A concrete MCP oracle: representative stations BJP/SHH give an empty
train list, one alternate station per city, and the alternate pairing has
trains. -/
def c3DemoCt : String → JValue → JValue := fun name args =>
  if name = "get-station-code-of-citys" then
    .obj [("success", .bool true),
          ("data", .obj [("result", .obj [("citys", .arr
            [.obj [("city", .str "北京"), ("station_code", .str "BJP")],
             .obj [("city", .str "上海"), ("station_code", .str "SHH")]])])])]
  else if name = "get-stations-code-in-city" then
    (match args.get "city" with
     | .str "北京" => .obj [("success", .bool true),
         ("data", .obj [("result", .arr [.obj [("station_code", .str "BJQ")]])])]
     | _ => .obj [("success", .bool true),
         ("data", .obj [("result", .arr [.obj [("station_code", .str "SHV")]])])])
  else
    (match args.get "fromStation" with
     | .str "BJP" => .obj [("success", .bool true),
         ("data", .obj [("result", .obj [("data", .arr [])])])]
     | _ => .obj [("success", .bool true),
         ("data", .obj [("result", .obj [("data",
           .arr [.obj [("train_no", .str "G2")]])])])])

/-- C3 witness: with the demonstration oracles the representative query is
empty, so the fallback probes the one candidate pair (BJQ, SHV), finds data
there, and the characterization theorem applies with all hypotheses
discharged at this concrete input. -/
theorem c3_city_station_fallback_witness :
    (query_12306_trains c3DemoParse c3DemoCt "北京" "上海" "2025-03-10").2.length ≤ 25 ∧
    (match (candPairs ([JValue.obj [("station_code", .str "BJQ")]].take 5)
        ([JValue.obj [("station_code", .str "SHV")]].take 5)).find?
        (goodPair (fun a b => _get_tickets c3DemoParse c3DemoCt "2025-03-10" a b)) with
     | some p =>
       (query_12306_trains c3DemoParse c3DemoCt "北京" "上海" "2025-03-10").1 =
         setFallback (_get_tickets c3DemoParse c3DemoCt "2025-03-10" p.1 p.2)
           "tried_top5_city_stations" ∧
       (query_12306_trains c3DemoParse c3DemoCt "北京" "上海" "2025-03-10").2 =
         (candPairs ([JValue.obj [("station_code", .str "BJQ")]].take 5)
           ([JValue.obj [("station_code", .str "SHV")]].take 5)).takeWhile
           (fun q => !goodPair
             (fun a b => _get_tickets c3DemoParse c3DemoCt "2025-03-10" a b) q)
           ++ [p]
     | none =>
       (query_12306_trains c3DemoParse c3DemoCt "北京" "上海" "2025-03-10").1 =
         setFallback (_get_tickets c3DemoParse c3DemoCt "2025-03-10" "BJP" "SHH")
           "tried_top5_city_stations_but_empty" ∧
       (query_12306_trains c3DemoParse c3DemoCt "北京" "上海" "2025-03-10").2 =
         candPairs ([JValue.obj [("station_code", .str "BJQ")]].take 5)
           ([JValue.obj [("station_code", .str "SHV")]].take 5)) :=
  c3_city_station_fallback c3DemoParse c3DemoCt "北京" "上海" "2025-03-10"
    "BJP" "SHH" [JValue.obj [("station_code", .str "BJQ")]]
    [JValue.obj [("station_code", .str "SHV")]]
    rfl rfl rfl rfl rfl rfl rfl

/-! ## HTTP classification (mcp_base._rpc) and the flight client
(transport_agent._get_flight_info), instantiated on a double-502 request -/

/-- The JSON-RPC payload built by `call_tool` via `_rpc` (mcp_base.py lines
46-48 and 83-84; `rpc_id` is always "1"). -/
def callToolPayload (name : String) (args : JValue) : JValue :=
  .obj [("jsonrpc", .str "2.0"), ("id", .str "1"), ("method", .str "tools/call"),
        ("params", .obj [("name", .str name), ("arguments", args)])]

/-- Translation of the response classification of `_rpc` (mcp_base.py lines
55-78): a status ≥ 400 is a failure before any parsing; otherwise the parsed
body (`parsed`, with `.null` when both `resp.json()` and the SSE fallback
fail) must be a dict without an "error" entry to count as success. -/
def rpcResponse (status : Nat) (body : String)
    (contentType contentLength : JValue) (parsed : JValue)
    (payload : JValue) : JValue :=
  let meta : JValue := .obj [("status_code", .num status),
    ("content_type", contentType), ("content_length", contentLength),
    ("payload", payload)]
  if 400 ≤ status then
    .obj [("success", .bool false), ("error", .str ("HTTP " ++ toString status)),
          ("raw", .str body), ("meta", meta)]
  else if parsed.isObj = false then
    .obj [("success", .bool false), ("error", .str "无法解析 MCP 响应"),
          ("raw", .str body), ("meta", meta)]
  else if (parsed.get "error").truthy then
    .obj [("success", .bool false), ("error", .str (pyToStr (parsed.get "error"))),
          ("raw", parsed), ("meta", meta)]
  else
    .obj [("success", .bool true), ("data", parsed), ("meta", meta)]

/-- Translation of `search_flight_itineraries` (variflight_mcp_tools.py lines
14-34): a failed `call_tool` result is passed through unchanged; the
success-path post-processing (raw-text extraction and summary parsing) is the
oracle `post`. -/
def search_flight_itineraries (ct : String → JValue → JValue)
    (post : JValue → JValue) (dep arr d : String) : JValue :=
  let r := ct "searchFlightItineraries"
    (.obj [("depCityCode", .str dep), ("arrCityCode", .str arr), ("depDate", .str d)])
  if (r.get "success").truthy = false then r
  else post r

/-- Translation of `_get_flight_info` (transport_agent.py lines 252-292) over
a `search_flight_itineraries` oracle. -/
def _get_flight_info (search : String → String → String → JValue)
    (departure destination date : String) : JValue :=
  match flightGuard departure destination with
  | .invalid msg =>
    .obj [("ok", .bool false), ("source", .str "variflight-mcp"),
          ("error", .obj [("type", .str "invalid_input"), ("message", .str msg)])]
  | .call dep_code arr_code =>
    let r := search dep_code arr_code date
    if (r.get "success").truthy = false then
      .obj [("ok", .bool false), ("source", .str "variflight-mcp"),
            ("error", .obj [("type", .str "api_error"),
              ("message", r.get "error"),
              ("http_status", (jOr (r.get "meta") (.obj [])).get "status"),
              ("raw", r.get "raw"), ("meta", r.get "meta")]),
            ("query", .obj [("depCityCode", .str dep_code),
              ("arrCityCode", .str arr_code), ("depDate", .str date)])]
    else
      .obj [("ok", .bool true), ("source", .str "variflight-mcp"),
            ("raw", r.get "data"), ("meta", r.get "meta"),
            ("query", .obj [("depCityCode", .str dep_code),
              ("arrCityCode", .str arr_code), ("depDate", .str date)])]

/-- A `call_tool` oracle whose every remote call answers HTTP 502 with an
empty body and no parsable payload. -/
def ct502 : String → JValue → JValue := fun name args =>
  rpcResponse 502 "" .null .null .null (callToolPayload name args)

/-- The train-side result of the 北京→上海 leg when every remote call returns
HTTP 502: three retry attempts against `query_12306_trains`, all failing. -/
def c5TrainRes : JValue :=
  (_get_train_info_with_retry (fun _ =>
    .reply ((query_12306_trains (fun _ => none) ct502 "北京" "上海" "2025-03-10").1))
    3).1

/-- The flight-side result of the same leg under HTTP 502 everywhere. -/
def c5FlightRes : JValue :=
  _get_flight_info (search_flight_itineraries ct502 id) "北京" "上海" "2025-03-10"

/-- The per-leg results dict of the double-502 request. -/
def c5Results : JValue := .obj [("train", c5TrainRes), ("flight", c5FlightRes)]

/-- The leg text produced locally for the double-502 request. -/
def c5LegText : String :=
  (_no_data_or_error_summary "北京" "上海" "2025-03-10" c5Results (.obj [])).getD ""

/-- C5: an HTTP status of 400 or more is classified as a Failure; when both
providers answer HTTP 502 on the 北京→上海 leg, the summarization
collaborator receives zero calls, the no-data template is used, and the
leg's text begins with 【数据不足】, lists the train failure and the flight
failure with their full error details (each mentioning HTTP 502), and offers
next-step suggestions. -/
theorem c5_double_502_no_data_report (llm : LLMOutcome) (extra : Nat) :
    ((rpcResponse (400 + extra) "" .null .null .null .null).get "success").truthy
      = false ∧
    (transportAnalysis "北京" "上海" "2025-03-10" c5Results (.obj []) llm).2.1 = 0 ∧
    (transportAnalysis "北京" "上海" "2025-03-10" c5Results (.obj []) llm).2.2 = true ∧
    (transportAnalysis "北京" "上海" "2025-03-10" c5Results (.obj []) llm).1 =
      c5LegText ∧
    strHasPre "【数据不足】" c5LegText = true ∧
    strHasSub ("火车查询：失败（" ++ pyToStr (c5TrainRes.get "error") ++ "）")
      c5LegText = true ∧
    strHasSub ("航班查询：失败/无方案（" ++ pyToStr (c5FlightRes.get "error") ++ "）")
      c5LegText = true ∧
    strHasSub "HTTP 502" (pyToStr (c5TrainRes.get "error")) = true ∧
    strHasSub "HTTP 502" (pyToStr (c5FlightRes.get "error")) = true ∧
    strHasSub "【下一步建议】" c5LegText = true ∧
    strHasSub "1) 我可以立刻为你重试一次查询（火车 502/超时通常是暂时性的）。"
      c5LegText = true := by
  have hcls : ((rpcResponse (400 + extra) "" .null .null .null .null).get
      "success").truthy = false := by
    rw [rpcResponse, if_pos (Nat.le_add_right 400 extra)]
    rfl
  have hsome : _no_data_or_error_summary "北京" "上海" "2025-03-10" c5Results
      (.obj []) = some c5LegText := rfl
  refine ⟨hcls, ?_, ?_, ?_, ?_, ?_, ?_, ?_, ?_, ?_, ?_⟩
  · simp only [transportAnalysis, hsome]
  · simp only [transportAnalysis, hsome]
  · simp only [transportAnalysis, hsome]
  · decide
  · decide
  · decide
  · decide
  · decide
  · decide
  · decide

/-! ## The compare_transport tool (transport_agent.py lines 441-667) and
tool_return (utils.py lines 5-26) -/

/-- Model of `isinstance(v, bool)`. -/
def JValue.isBool : JValue → Bool
  | .bool _ => true
  | _ => false

/-- Translation of `_normalize_city` (transport_agent.py lines 83-84). -/
def _normalize_city (v : JValue) : String :=
  match v with
  | .str s => pyStrip s
  | _ => ""

/-- The transport arguments extracted from a profile
(`parse_transport_args_from_profile`, transport_agent.py lines 87-114).  The
profile is taken already JSON-parsed (`_safe_json_loads` boundary). -/
structure TransportArgs where
  departure : String
  destination : String
  departure_date : Option String
  return_date : Option String
  people : JValue
  days : JValue
  budget_cny : JValue
  preferences : JValue

/-- Translation of `parse_transport_args_from_profile`. -/
def parse_transport_args_from_profile (p : JValue) : TransportArgs :=
  { departure := _normalize_city (p.get "depart_city")
    destination := _normalize_city (p.get "destination")
    departure_date :=
      match p.get "departure_date" with
      | .str s => some (pyStrip s)
      | _ => none
    return_date :=
      match p.get "return_date" with
      | .str s => some (pyStrip s)
      | _ => none
    people := p.get "people"
    days := p.get "days"
    budget_cny := p.get "budget_cny"
    preferences := p.get "preferences" }

/-- `depart_city` as recomputed by `compare_transport` (line 468). -/
def profDepCity (p : JValue) : String :=
  _normalize_city (.str (parse_transport_args_from_profile p).departure)

/-- `destination` as recomputed by `compare_transport` (line 469). -/
def profDst (p : JValue) : String :=
  _normalize_city (.str (parse_transport_args_from_profile p).destination)

/-- `dep_date` of `compare_transport` (line 470). -/
def profDepDate (p : JValue) : String :=
  match (parse_transport_args_from_profile p).departure_date with
  | some s => pyStrip s
  | none => ""

/-- `ret_date` of `compare_transport` (line 471). -/
def profRetDate (p : JValue) : String :=
  match (parse_transport_args_from_profile p).return_date with
  | some s => pyStrip s
  | none => ""

/-- The `_missing_err` aggregation (lines 474-475). -/
def _missing_err (fields : List String) : String :=
  "交通比价缺少/不合法信息：" ++ joinWith "、" fields ++ "。"

/-- The error payload dict handed to `tool_return` on validation failure. -/
def errPayload (e : String) : JValue :=
  .obj [("ok", .bool false), ("source", .str "transport-exec"), ("error", .str e)]

/-- The success payload dict handed to `tool_return` (lines 650-660). -/
def okPayload (text trip_type : String) (outboundVal inboundVal : JValue)
    (hasInbound : Bool) : JValue :=
  .obj [("ok", .bool true), ("source", .str "transport-exec"),
        ("data", .obj [("text", .str text), ("trip_type", .str trip_type),
          ("outbound", outboundVal), ("inbound", inboundVal),
          ("has_inbound", .bool hasInbound)])]

/-- The violated-field list of the outbound (and roundtrip) validation
(lines 477-488 and 504-516). -/
def missingOutbound (depCity dst depDate : String) : List String :=
  (if depCity = "" then ["出发城市"] else []) ++
  (if dst = "" then ["目的地"] else []) ++
  (if depDate = "" then ["出发日期"]
   else if !matchesDateShape (pyStrip depDate) then ["出发日期不合法"] else [])

/-- The violated-field list of the inbound validation (lines 490-502). -/
def missingInbound (depCity dst retDate : String) : List String :=
  (if depCity = "" then ["出发城市（用于返程到达）"] else []) ++
  (if dst = "" then ["目的地（用于返程出发）"] else []) ++
  (if retDate = "" then ["返程日期"]
   else if !matchesDateShape (pyStrip retDate) then ["返程日期不合法"] else [])

/-- The result of one `get_transport_plan` call, at the oracle boundary used
by `compare_transport`: the leg's analysis text and its options dict (the
plan dict always carries these two fields). -/
structure PlanResult where
  analysisText : String
  options : JValue

/-- `_extract_raw_len` (transport_agent.py lines 78-80). -/
def extractRawLen (d : JValue) : Nat :=
  match d.get "raw" with
  | .arr l => l.length
  | _ => 0

/-- The debug block filled from a leg's options (lines 172-183 compute the
fields, lines 548-557 and 578-587 and 608-617 serialize them). -/
def debugBlock (options : JValue) : JValue :=
  let train := dictOrEmpty (options.get "train")
  let flight := dictOrEmpty (options.get "flight")
  .obj [("train_ok", .bool (decide (0 < extractRawLen train))),
        ("flight_ok", .bool (decide (0 < extractRawLen flight))),
        ("train_error", train.getD "error" (.str "")),
        ("flight_error", flight.getD "error" (.str "")),
        ("train_raw_len", .num (extractRawLen train)),
        ("flight_raw_len", .num (extractRawLen flight)),
        ("flight_query", flight.get "query")]

/-- One leg's data dict (lines 541-557 / 571-587 / 601-617). -/
def legData (r : PlanResult) (dep dst date : String) (withDebug : Bool) :
    JValue :=
  if withDebug then
    .obj [("text", .str r.analysisText), ("departure", .str dep),
          ("destination", .str dst), ("departure_date", .str date),
          ("options", r.options), ("debug", debugBlock r.options)]
  else
    .obj [("text", .str r.analysisText), ("departure", .str dep),
          ("destination", .str dst), ("departure_date", .str date),
          ("options", r.options)]

/-- The note appended when a roundtrip return date looks wrong (line 620). -/
def rtNoteInvalid : String :=
  "我看到你给了返程日期，但它目前不太像一个明确日期，所以这次先只查了去程；如果你愿意，告诉我返程那天我也可以一起比一下。"

/-- The note appended when a roundtrip has no return date (line 622). -/
def rtNoteMissing : String :=
  "如果你也想把返程一起对比，把返程那天告诉我，我可以把回程火车/航班也一起查出来。"

/-- The outbound-only branch of `compare_transport` (validation lines
477-488, execution lines 530-557, merge lines 625-631). -/
def outboundFlow (plan : String → String → String → PlanResult)
    (profile : JValue) (enable_debug : Bool) : JValue :=
  match missingOutbound (profDepCity profile) (profDst profile)
      (profDepDate profile) with
  | [] =>
    okPayload
      (_merge_two_legs_text
        (plan (profDepCity profile) (profDst profile)
          (profDepDate profile)).analysisText
        none (profDepCity profile, profDst profile, profDepDate profile) none)
      "outbound"
      (legData (plan (profDepCity profile) (profDst profile) (profDepDate profile))
        (profDepCity profile) (profDst profile) (profDepDate profile) enable_debug)
      .null false
  | missing => errPayload (_missing_err missing)

/-- The inbound-only branch of `compare_transport` (validation lines
490-502, execution lines 560-587, merge lines 632-638). -/
def inboundFlow (plan : String → String → String → PlanResult)
    (profile : JValue) (enable_debug : Bool) : JValue :=
  match missingInbound (profDepCity profile) (profDst profile)
      (profRetDate profile) with
  | [] =>
    okPayload
      (_merge_two_legs_text
        (plan (profDst profile) (profDepCity profile)
          (profRetDate profile)).analysisText
        none (profDst profile, profDepCity profile, profRetDate profile) none)
      "inbound" .null
      (legData (plan (profDst profile) (profDepCity profile) (profRetDate profile))
        (profDst profile) (profDepCity profile) (profRetDate profile) enable_debug)
      true
  | missing => errPayload (_missing_err missing)

/-- The roundtrip branch of `compare_transport` (validation lines 504-516,
execution lines 530-557 and 589-622, merge lines 639-648). -/
def roundtripFlow (plan : String → String → String → PlanResult)
    (profile : JValue) (enable_debug : Bool) : JValue :=
  match missingOutbound (profDepCity profile) (profDst profile)
      (profDepDate profile) with
  | [] =>
    if matchesDateShape (pyStrip (profRetDate profile)) then
      okPayload
        (_merge_two_legs_text
          (plan (profDepCity profile) (profDst profile)
            (profDepDate profile)).analysisText
          (some (plan (profDst profile) (profDepCity profile)
            (profRetDate profile)).analysisText)
          (profDepCity profile, profDst profile, profDepDate profile)
          (some (profDst profile, profDepCity profile, profRetDate profile)))
        "roundtrip"
        (legData (plan (profDepCity profile) (profDst profile) (profDepDate profile))
          (profDepCity profile) (profDst profile) (profDepDate profile) enable_debug)
        (legData (plan (profDst profile) (profDepCity profile) (profRetDate profile))
          (profDst profile) (profDepCity profile) (profRetDate profile) enable_debug)
        true
    else
      okPayload
        (_merge_two_legs_text
          (plan (profDepCity profile) (profDst profile)
            (profDepDate profile)).analysisText
          none (profDepCity profile, profDst profile, profDepDate profile) none
         ++ "\n\n" ++
         (if profRetDate profile = "" then rtNoteMissing else rtNoteInvalid))
        "roundtrip"
        (legData (plan (profDepCity profile) (profDst profile) (profDepDate profile))
          (profDepCity profile) (profDst profile) (profDepDate profile) enable_debug)
        .null false
  | missing => errPayload (_missing_err missing)

/-- Translation of the `compare_transport` tool body (transport_agent.py
lines 441-660): the payload dict passed to `tool_return`. -/
def compare_transport (plan : String → String → String → PlanResult)
    (profile : JValue) (trip_type0 : String) (enable_debug : Bool) : JValue :=
  let trip_type := pyLower (pyStrip trip_type0)
  if (trip_type == "outbound" || trip_type == "inbound" ||
      trip_type == "roundtrip") = false then
    errPayload ("trip_type 不合法：" ++ trip_type ++ "（应为 outbound / inbound / roundtrip）")
  else if trip_type == "outbound" then outboundFlow plan profile enable_debug
  else if trip_type == "inbound" then inboundFlow plan profile enable_debug
  else roundtripFlow plan profile enable_debug

/-- Translation of `tool_return` (utils.py lines 5-26): the envelope dict it
serializes, with the timestamp as a parameter. -/
def tool_return (ok data error : JValue) (source ts : String) : JValue :=
  .obj [("ok", ok), ("data", data), ("error", error),
        ("source", .str source), ("retrieved_at", .str ts)]

/-- The string `compare_transport` actually returns, as transport_agent.py
calls it: `tool_return({...})` binds the whole payload dict to the `ok`
parameter positionally, leaving `data`/`error` at their `None` defaults and
`source` at "unknown". -/
def compare_transport_tool_output (plan : String → String → String → PlanResult)
    (profile : JValue) (trip_type0 : String) (enable_debug : Bool)
    (ts : String) : JValue :=
  tool_return (compare_transport plan profile trip_type0 enable_debug)
    .null .null "unknown" ts

lemma hasSubList_decomp (n pre post : List Char) :
    hasSubList n (pre ++ n ++ post) = true := by
  induction pre with
  | nil =>
    simp only [List.nil_append]
    cases n with
    | nil => cases post <;> simp [hasSubList]
    | cons a as =>
      simp only [List.cons_append, hasSubList, Bool.or_eq_true]
      left
      rw [List.isPrefixOf_iff_prefix]
      exact List.prefix_append (a :: as) post
  | cons c pre ih =>
    simp only [List.cons_append, hasSubList, Bool.or_eq_true]
    right
    simpa using ih

lemma strHasSub_of_decomp (f s : String) (pre post : List Char)
    (h : s.data = pre ++ f.data ++ post) : strHasSub f s = true := by
  rw [strHasSub, h]
  exact hasSubList_decomp _ _ _

lemma joinWith_mem_decomp (sep f : String) (l : List String) (h : f ∈ l) :
    ∃ pre post, (joinWith sep l).data = pre ++ f.data ++ post := by
  induction l with
  | nil => cases h
  | cons x xs ih =>
    rcases List.mem_cons.mp h with rfl | hx
    · cases xs with
      | nil => exact ⟨[], [], by simp [joinWith]⟩
      | cons y ys =>
        refine ⟨[], sep.data ++ (joinWith sep (y :: ys)).data, ?_⟩
        show (f ++ sep ++ joinWith sep (y :: ys)).data = _
        simp [List.append_assoc]
    · cases xs with
      | nil => cases hx
      | cons y ys =>
        obtain ⟨pre, post, hd⟩ := ih hx
        refine ⟨x.data ++ sep.data ++ pre, post, ?_⟩
        show (x ++ sep ++ joinWith sep (y :: ys)).data = _
        simp [hd, List.append_assoc]

lemma mem_missing_err (f : String) (fields : List String) (h : f ∈ fields) :
    strHasSub f (_missing_err fields) = true := by
  obtain ⟨pre, post, hd⟩ := joinWith_mem_decomp "、" f fields h
  refine strHasSub_of_decomp f _ ("交通比价缺少/不合法信息：".data ++ pre)
    (post ++ "。".data) ?_
  show ("交通比价缺少/不合法信息：" ++ joinWith "、" fields ++ "。").data = _
  simp [hd, List.append_assoc]

/-- C7: evidence that the claim's caller-facing shape is broken by the
signature mismatch: `compare_transport` passes its whole payload dict
positionally into `tool_return`'s boolean `ok` parameter, so the returned
JSON's top-level "ok" holds the payload object (never a boolean), the
user-facing fields sit nested under "ok", and top-level "data"/"error" are
null with source "unknown". -/
theorem c7_tool_return_nests_payload
    (plan : String → String → String → PlanResult) (ts : String) :
    (compare_transport_tool_output plan (.obj []) "outbound" true ts).get "ok" =
      errPayload "交通比价缺少/不合法信息：出发城市、目的地、出发日期。" ∧
    ((compare_transport_tool_output plan (.obj []) "outbound" true ts).get
      "ok").isBool = false ∧
    (compare_transport_tool_output plan (.obj []) "outbound" true ts).get
      "data" = .null ∧
    (compare_transport_tool_output plan (.obj []) "outbound" true ts).get
      "error" = .null ∧
    (compare_transport_tool_output plan (.obj []) "outbound" true ts).get
      "source" = .str "unknown" :=
  ⟨rfl, rfl, rfl, rfl, rfl⟩

/-- C6: a roundtrip whose outbound fields validate but whose return date is
absent or malformed never fails as a whole — it returns an ok payload with
no inbound leg and the outbound text plus an explanatory note; and for every
request, validation failure produces the single aggregated error string of
`_missing_err`, which contains every violated field. -/
theorem c6_roundtrip_degradation_and_aggregated_errors
    (plan : String → String → String → PlanResult) (profile : JValue)
    (dbg : Bool) :
    (missingOutbound (profDepCity profile) (profDst profile)
        (profDepDate profile) = [] →
     matchesDateShape (pyStrip (profRetDate profile)) = false →
     (compare_transport plan profile "roundtrip" dbg).get "ok" = .bool true ∧
     ((compare_transport plan profile "roundtrip" dbg).get "data").get
       "inbound" = .null ∧
     ((compare_transport plan profile "roundtrip" dbg).get "data").get
       "has_inbound" = .bool false ∧
     ((compare_transport plan profile "roundtrip" dbg).get "data").get "text" =
       .str (_merge_two_legs_text
           (plan (profDepCity profile) (profDst profile)
             (profDepDate profile)).analysisText
           none (profDepCity profile, profDst profile, profDepDate profile) none
         ++ "\n\n" ++
         (if profRetDate profile = "" then rtNoteMissing else rtNoteInvalid))) ∧
    (missingOutbound (profDepCity profile) (profDst profile)
        (profDepDate profile) ≠ [] →
     compare_transport plan profile "outbound" dbg =
       errPayload (_missing_err (missingOutbound (profDepCity profile)
         (profDst profile) (profDepDate profile))) ∧
     compare_transport plan profile "roundtrip" dbg =
       errPayload (_missing_err (missingOutbound (profDepCity profile)
         (profDst profile) (profDepDate profile))) ∧
     ∀ f ∈ missingOutbound (profDepCity profile) (profDst profile)
         (profDepDate profile),
       strHasSub f (_missing_err (missingOutbound (profDepCity profile)
         (profDst profile) (profDepDate profile))) = true) ∧
    (missingInbound (profDepCity profile) (profDst profile)
        (profRetDate profile) ≠ [] →
     compare_transport plan profile "inbound" dbg =
       errPayload (_missing_err (missingInbound (profDepCity profile)
         (profDst profile) (profRetDate profile))) ∧
     ∀ f ∈ missingInbound (profDepCity profile) (profDst profile)
         (profRetDate profile),
       strHasSub f (_missing_err (missingInbound (profDepCity profile)
         (profDst profile) (profRetDate profile))) = true) := by
  have hro : compare_transport plan profile "roundtrip" dbg =
      roundtripFlow plan profile dbg := rfl
  have hob : compare_transport plan profile "outbound" dbg =
      outboundFlow plan profile dbg := rfl
  have hib : compare_transport plan profile "inbound" dbg =
      inboundFlow plan profile dbg := rfl
  refine ⟨?_, ?_, ?_⟩
  · intro h1 h2
    rw [hro]
    simp only [roundtripFlow, h1]
    rw [if_neg (by simp [h2])]
    exact ⟨rfl, rfl, rfl, rfl⟩
  · intro hne
    cases hm : missingOutbound (profDepCity profile) (profDst profile)
        (profDepDate profile) with
    | nil => exact absurd hm hne
    | cons f fs =>
      refine ⟨?_, ?_, ?_⟩
      · rw [hob]
        simp only [outboundFlow, hm]
      · rw [hro]
        simp only [roundtripFlow, hm]
      · intro g hg
        exact mem_missing_err g (f :: fs) hg
  · intro hne
    cases hm : missingInbound (profDepCity profile) (profDst profile)
        (profRetDate profile) with
    | nil => exact absurd hm hne
    | cons f fs =>
      refine ⟨?_, ?_⟩
      · rw [hib]
        simp only [inboundFlow, hm]
      · intro g hg
        exact mem_missing_err g (f :: fs) hg

/-- C6 witness: a valid-outbound profile with no return date degrades to an
ok outbound-only roundtrip report, and the empty profile yields the single
aggregated error mentioning the departure-city field. -/
theorem c6_roundtrip_degradation_witness :
    ((compare_transport (fun _ _ _ => ⟨"去程分析", .obj []⟩)
        (.obj [("depart_city", .str "北京"), ("destination", .str "上海"),
               ("departure_date", .str "2025-03-10")]) "roundtrip" true).get
      "ok" = .bool true ∧
     ((compare_transport (fun _ _ _ => ⟨"去程分析", .obj []⟩)
        (.obj [("depart_city", .str "北京"), ("destination", .str "上海"),
               ("departure_date", .str "2025-03-10")]) "roundtrip" true).get
      "data").get "has_inbound" = .bool false) ∧
    (compare_transport (fun _ _ _ => ⟨"去程分析", .obj []⟩)
        (.obj []) "outbound" true =
      errPayload (_missing_err (missingOutbound (profDepCity (.obj []))
        (profDst (.obj [])) (profDepDate (.obj [])))) ∧
     strHasSub "出发城市" (_missing_err (missingOutbound (profDepCity (.obj []))
        (profDst (.obj [])) (profDepDate (.obj [])))) = true) := by
  have h1 := (c6_roundtrip_degradation_and_aggregated_errors
    (fun _ _ _ => ⟨"去程分析", .obj []⟩)
    (.obj [("depart_city", .str "北京"), ("destination", .str "上海"),
           ("departure_date", .str "2025-03-10")]) true).1
    (by decide) (by decide)
  have h2 := (c6_roundtrip_degradation_and_aggregated_errors
    (fun _ _ _ => ⟨"去程分析", .obj []⟩) (.obj []) true).2.1 (by decide)
  exact ⟨⟨h1.1, h1.2.2.1⟩, ⟨h2.1, h2.2.2 "出发城市" (by decide)⟩⟩

end TravelAgent
